import Mathlib

/-!
Inventory manager: classification, filters, alerts and forms
(`frontend/src/App_backup.js`).

A shallow embedding of the `InventoryApp` component: the row classifier
`getRowColor` and the stock cell rendered next to it, the search filters
`productosFiltrados` and `contactosFiltrados`, the alerts panel (category
figures and table rows), the change handlers of the settings tab, the product
form (`editarItem`, `handleProductoSubmit`), and the parts of the host the
component calls: the ECMAScript `Date` object (`new Date()`, `getMonth`,
`setMonth`, the relational comparison of two dates), `parseInt` and
`parseFloat`.

Conventions of the embedding.

* A JavaScript time value is an `Int` (milliseconds since the epoch); a `Date`
  whose time value is `NaN` is `none`.
* The component reads `configuracion` from React state and the clock from
  `new Date()`; both are explicit arguments here (`configuracion`, `ahora`).
* `new Date(text)` is implementation-defined outside the ISO format, so the
  parser is an argument (`parse`); `isoParse` is the date-only ISO fragment and
  is used at concrete inputs.
* The host's local time zone is UTC, so `LocalTime` and `UTC` are the identity.
* Stock figures and thresholds are integers; a price is a rational number. A
  number that is `NaN` is `none`. Numbers are exact: the rounding of a double
  is not modelled, and an infinity has no counterpart, so `overflowBound`
  marks the numbers that JavaScript reads as finite.
* A string is a list of Unicode characters. `String.prototype.toLowerCase`
  follows the Unicode case mappings, so it is an argument (`toLowerCase`);
  `asciiLower` and `greekLower` are what it does on ASCII text and on Greek
  capital letters, and are used at concrete inputs.
* The component receives the alert list from `GET /alertas` and shows it as
  received. The endpoint is not among the sources; `buildAlerts` models it from
  section 4.2 of the spec.
* Of an event handler, the value it computes and passes on is modelled (the
  argument of `actualizarConfiguracion`, the object sent by
  `handleProductoSubmit`), not the request that follows.
-/

namespace Inventario

/-! ## Data model -/

/-- A product as delivered by `GET /productos`. -/
structure Producto where
  id : String
  codigo : String
  descripcion : String
  unidad_venta : String
  stock_actual : Int
  precio_venta : Rat
  fecha_ingreso : Option String
  fecha_vencimiento : Option String
  deriving DecidableEq

/-- The `configuracion` state of the component. -/
structure Configuracion where
  stock_bajo_limite : Int
  vencimiento_alerta_meses : Int
  deriving DecidableEq

/-! ## ECMAScript time values (ECMA-262, "Time Values and Time Range") -/

def msPerDay : Int := 86400000

/-- The day number of a time value: `Day(t) = floor(t / msPerDay)`. -/
def Day (t : Int) : Int := t / msPerDay

/-- The milliseconds elapsed in the day: `TimeWithinDay(t) = t modulo msPerDay`. -/
def TimeWithinDay (t : Int) : Int := t % msPerDay

/-- The number of days of year `y`: `DaysInYear(y)`. -/
def DaysInYear (y : Int) : Int :=
  if y % 4 ≠ 0 then 365
  else if y % 100 ≠ 0 then 366
  else if y % 400 ≠ 0 then 365
  else 366

/-- The day number of the first day of year `y`: `DayFromYear(y)`. -/
def DayFromYear (y : Int) : Int :=
  365 * (y - 1970) + (y - 1969) / 4 - (y - 1901) / 100 + (y - 1601) / 400

/-- The year containing day number `d`: the largest `y` with
`DayFromYear(y) ≤ d` (the definition of `YearFromTime`), found from an estimate
that is off by at most one; `yearFromDay_spec` and `yearFromDay_unique` show
that it is that year. -/
def yearFromDay (d : Int) : Int :=
  let y := 1970 + (400 * d) / 146097
  if DayFromYear (y + 1) ≤ d then y + 1
  else if DayFromYear y ≤ d then y
  else y - 1

/-- The year of a time value: `YearFromTime(t)`. -/
def YearFromTime (t : Int) : Int := yearFromDay (Day t)

/-- The extra day of a leap year (1 in a leap year, 0 otherwise), from the year. -/
def leapOfYear (y : Int) : Int := if DaysInYear y = 366 then 1 else 0

/-- The extra day of the year of a time value: `InLeapYear(t)`. -/
def InLeapYear (t : Int) : Int := leapOfYear (YearFromTime t)

/-- The day of the year, from 0: `DayWithinYear(t)`. -/
def DayWithinYear (t : Int) : Int := Day t - DayFromYear (YearFromTime t)

/-- The month (0 = January) of day `dwy` of a year, `leap` being 1 in a leap
year: the table of `MonthFromTime`. -/
def monthOfDayInYear (dwy leap : Int) : Int :=
  if dwy < 31 then 0
  else if dwy < 59 + leap then 1
  else if dwy < 90 + leap then 2
  else if dwy < 120 + leap then 3
  else if dwy < 151 + leap then 4
  else if dwy < 181 + leap then 5
  else if dwy < 212 + leap then 6
  else if dwy < 243 + leap then 7
  else if dwy < 273 + leap then 8
  else if dwy < 304 + leap then 9
  else if dwy < 334 + leap then 10
  else 11

/-- The number of days of a year before month `m` (0 = January). -/
def monthStart (m leap : Int) : Int :=
  if m = 0 then 0
  else if m = 1 then 31
  else if m = 2 then 59 + leap
  else if m = 3 then 90 + leap
  else if m = 4 then 120 + leap
  else if m = 5 then 151 + leap
  else if m = 6 then 181 + leap
  else if m = 7 then 212 + leap
  else if m = 8 then 243 + leap
  else if m = 9 then 273 + leap
  else if m = 10 then 304 + leap
  else 334 + leap

/-- The month of a time value, 0 = January: `MonthFromTime(t)`. -/
def MonthFromTime (t : Int) : Int := monthOfDayInYear (DayWithinYear t) (InLeapYear t)

/-- The day of the month, from 1: `DateFromTime(t)`. -/
def DateFromTime (t : Int) : Int :=
  DayWithinYear t - monthStart (MonthFromTime t) (InLeapYear t) + 1

/-- The day number `MakeDay(year, month, date)`: the month may lie outside 0..11
and the date outside the month; both carry over. -/
def MakeDay (year month date : Int) : Int :=
  let ym := year + month / 12
  let mn := month % 12
  DayFromYear ym + monthStart mn (leapOfYear ym) + date - 1

/-- The time value `MakeDate(day, time)`. -/
def MakeDate (day time : Int) : Int := day * msPerDay + time

/-- The range check `TimeClip(time)`: a time value further than 8.64e15 ms from
the epoch is `NaN`. -/
def TimeClip (time : Int) : Option Int :=
  if time.natAbs > 8640000000000000 then none else some time

/-- The method `Date.prototype.getMonth()`. -/
def getMonth (t : Int) : Int := MonthFromTime t

/-- The method `Date.prototype.getDate()`. -/
def getDate (t : Int) : Int := DateFromTime t

/-- The method `Date.prototype.getFullYear()`. -/
def getFullYear (t : Int) : Int := YearFromTime t

/-- The method `Date.prototype.setMonth(month)` on a date whose time value is
`t`, called without a date argument: the new time value. -/
def setMonth (t month : Int) : Option Int :=
  TimeClip (MakeDate (MakeDay (YearFromTime t) month (DateFromTime t)) (TimeWithinDay t))

/-- The comparison `a <= b` of two `Date` objects: that of their time values,
false when either is `NaN`. -/
def dateLe : Option Int → Option Int → Bool
  | some a, some b => decide (a ≤ b)
  | _, _ => false

/-- Truthiness of a nullable string: `null` and `''` are falsy. -/
def truthy : Option String → Bool
  | none => false
  | some s => s != ""

/-! ## The classifier -/

/-- The value of `fechaLimite` in `getRowColor`: `new Date()` moved by
`setMonth(getMonth() + vencimiento_alerta_meses)`. -/
def fechaLimite (configuracion : Configuracion) (ahora : Int) : Option Int :=
  setMonth ahora (getMonth ahora + configuracion.vencimiento_alerta_meses)

/-- The row classifier `getRowColor(producto)`: the class of a product row. -/
def getRowColor (parse : String → Option Int) (configuracion : Configuracion) (ahora : Int)
    (producto : Producto) : String :=
  if producto.stock_actual = 0 then "bg-red-100 border-red-300"
  else if producto.stock_actual < configuracion.stock_bajo_limite then
    "bg-yellow-100 border-yellow-300"
  else if truthy producto.fecha_vencimiento then
    if dateLe (producto.fecha_vencimiento.bind parse) (fechaLimite configuracion ahora) then
      "bg-orange-100 border-orange-300"
    else "bg-white border-gray-200"
  else "bg-white border-gray-200"

/-- The class of the stock cell of a product row (the `span` inside the fourth
column of the inventory table). -/
def stockCellColor (configuracion : Configuracion) (producto : Producto) : String :=
  if producto.stock_actual = 0 then "text-red-600"
  else if producto.stock_actual < configuracion.stock_bajo_limite then "text-yellow-600"
  else "text-gray-900"

/-! ## Calendar notions used to state the properties -/

/-- The number of days of month `m` (0 = January), `leap` being 1 in a leap
year. -/
def daysInMonth (m leap : Int) : Int :=
  if m = 1 then 28 + leap
  else if m = 3 ∨ m = 5 ∨ m = 8 ∨ m = 10 then 30
  else 31

/-- Follows the spec's words (section 4.1, month-add semantics): the date `n`
calendar months after `t`, the day-of-month clamped to the last valid day of
the target month. -/
def addMonthsClamped (t n : Int) : Option Int :=
  TimeClip (MakeDate
    (MakeDay (YearFromTime t) (MonthFromTime t + n)
      (min (DateFromTime t)
        (daysInMonth ((MonthFromTime t + n) % 12)
          (leapOfYear (YearFromTime t + (MonthFromTime t + n) / 12)))))
    (TimeWithinDay t))

/-- The value of a run of decimal digits. -/
def digitsValue (cs : List Char) : Option Int :=
  if cs.all Char.isDigit then
    some (cs.foldl (fun n c => 10 * n + ((c.toNat : Int) - 48)) 0)
  else none

/-- The date-only form `YYYY-MM-DD` of the ECMAScript date-time string format:
`new Date(text)` is midnight UTC of that day; any other text is `NaN` here. -/
def isoParse (text : String) : Option Int :=
  match text.data with
  | [y1, y2, y3, y4, '-', m1, m2, '-', d1, d2] =>
    match digitsValue [y1, y2, y3, y4], digitsValue [m1, m2], digitsValue [d1, d2] with
    | some y, some m, some d =>
      if 1 ≤ m ∧ m ≤ 12 ∧ 1 ≤ d ∧ d ≤ daysInMonth (m - 1) (leapOfYear y) then
        TimeClip (MakeDate (MakeDay y (m - 1) d) 0)
      else none
    | _, _, _ => none
  | _ => none

/-! ## Catalog filters -/

/-- A contact as delivered by `GET /contactos`. -/
structure Contacto where
  id : String
  nombre : String
  direccion : Option String
  telefono : Option String
  correo : Option String
  tipo : String
  deriving DecidableEq

/-- The search of `String.prototype.includes` on the characters of two strings:
whether `buscado` occurs in `texto` starting at some position. -/
def includesChars : List Char → List Char → Bool
  | [], buscado => buscado.isEmpty
  | c :: resto, buscado => buscado.isPrefixOf (c :: resto) || includesChars resto buscado

/-- The method `String.prototype.includes(searchString)`. -/
def includes (texto buscado : String) : Bool := includesChars texto.data buscado.data

/-- The memoised list `productosFiltrados`. The host's `toLowerCase` (Unicode
case mapping) is an argument. -/
def productosFiltrados (toLowerCase : String → String) (productos : List Producto)
    (searchTerm : String) : List Producto :=
  productos.filter (fun producto =>
    includes (toLowerCase producto.codigo) (toLowerCase searchTerm) ||
    includes (toLowerCase producto.descripcion) (toLowerCase searchTerm))

/-- The memoised list `contactosFiltrados`: `contacto.correo && ...` is falsy for
a `null` or empty `correo`. -/
def contactosFiltrados (toLowerCase : String → String) (contactos : List Contacto)
    (searchTerm : String) : List Contacto :=
  contactos.filter (fun contacto =>
    includes (toLowerCase contacto.nombre) (toLowerCase searchTerm) ||
    (match contacto.correo with
      | some correo =>
        correo != "" && includes (toLowerCase correo) (toLowerCase searchTerm)
      | none => false))

/-- The lower-casing of the letters `A` to `Z`, every other character kept:
what `toLowerCase` does on ASCII text; used at concrete inputs. -/
def asciiLower (texto : String) : String := ⟨texto.data.map Char.toLower⟩

/-! ## The alerts panel -/

/-- An alert record as delivered by `GET /alertas`: the fields the alerts panel
reads. -/
structure Alerta where
  tipo_alerta : String
  codigo : String
  descripcion : String
  stock_actual : Int
  fecha_vencimiento : Option String
  dias_para_vencer : Option Int
  deriving DecidableEq

/-- The figure of a category card of the alerts panel:
`alertas.filter(a => a.tipo_alerta === tipo).length`. -/
def contarAlertas (alertas : List Alerta) (tipo : String) : Nat :=
  (alertas.filter (fun a => a.tipo_alerta == tipo)).length

/-- The count shown on the alerts tab: `alertas.length`. -/
def totalAlertas (alertas : List Alerta) : Nat := alertas.length

/-- The text of the type cell of an alert row. -/
def tipoCell (alerta : Alerta) : String :=
  if alerta.tipo_alerta = "stock_cero" then "🚨 Agotado"
  else if alerta.tipo_alerta = "stock_bajo" then "⚠️ Bajo"
  else "⏰ Vence"

/-- The text of the days cell of an alert row: the number received followed by
`días`, or a dash for `null`. -/
def diasCell (alerta : Alerta) : String :=
  match alerta.dias_para_vencer with
  | some dias => toString dias ++ " días"
  | none => "-"

/-- The cells of a row of the alerts table that do not depend on the locale
(the expiry date cell is printed with `toLocaleDateString`). -/
structure FilaAlerta where
  tipo : String
  codigo : String
  descripcion : String
  stock : Int
  dias : String
  deriving DecidableEq

/-- The rows of the alerts table, `alertas.map(...)`: one row per record, in the
order of the list. -/
def filasAlertas (alertas : List Alerta) : List FilaAlerta :=
  alertas.map (fun alerta =>
    ⟨tipoCell alerta, alerta.codigo, alerta.descripcion, alerta.stock_actual, diasCell alerta⟩)

/-! ## The alert list (section 4.2 of the spec) -/

/-- Modelled from the spec: the category of the alert record of a product, from
the class the classifier gives it (StockZero, StockLow, ExpirySoon; no record
for None). The endpoint `/alertas` that builds the records is not among the
sources. -/
def tipoAlertaDe (clase : String) : Option String :=
  if clase = "bg-red-100 border-red-300" then some "stock_cero"
  else if clase = "bg-yellow-100 border-yellow-300" then some "stock_bajo"
  else if clase = "bg-orange-100 border-orange-300" then some "proximo_vencer"
  else none

/-- Modelled from the spec: `daysUntilExpiry = expiryDate - today` in whole
days, clamped at 0 (section 4.2); computed by the endpoint `/alertas`, which is
not among the sources. -/
def diasParaVencer (parse : String → Option Int) (ahora : Int)
    (fecha_vencimiento : Option String) : Option Int :=
  (fecha_vencimiento.bind parse).map (fun vence => max 0 (Day vence - Day ahora))

/-- Modelled from the spec: the alert record of a product (section 3: category,
stock at evaluation time, expiry date, days until expiry for ExpirySoon records
and `null` otherwise), none for a product classified None; built by the
endpoint `/alertas`, which is not among the sources. -/
def alertaDe (parse : String → Option Int) (configuracion : Configuracion) (ahora : Int)
    (producto : Producto) : Option Alerta :=
  (tipoAlertaDe (getRowColor parse configuracion ahora producto)).map (fun tipo =>
    { tipo_alerta := tipo
      codigo := producto.codigo
      descripcion := producto.descripcion
      stock_actual := producto.stock_actual
      fecha_vencimiento := producto.fecha_vencimiento
      dias_para_vencer :=
        if tipo = "proximo_vencer" then
          diasParaVencer parse ahora producto.fecha_vencimiento
        else none })

/-- Modelled from the spec: the rank of a category in the severity order
`StockZero > StockLow > ExpirySoon` (section 4.2), smaller first. -/
def severidad (tipo : String) : Nat :=
  if tipo = "stock_cero" then 0
  else if tipo = "stock_bajo" then 1
  else 2

/-- Modelled from the spec: the lexicographic order of product codes (section
4.2), character by character. -/
def codigoLe : List Char → List Char → Bool
  | [], _ => true
  | _ :: _, [] => false
  | a :: as, b :: bs => decide (a.toNat < b.toNat) || (a.toNat == b.toNat && codigoLe as bs)

/-- Modelled from the spec: the order of the alert list, by severity and then
by product code ascending (section 4.2). -/
def alertaLe (a b : Alerta) : Prop :=
  severidad a.tipo_alerta < severidad b.tipo_alerta ∨
    (severidad a.tipo_alerta = severidad b.tipo_alerta ∧
      codigoLe a.codigo.data b.codigo.data = true)

instance alertaLe.decidable : DecidableRel alertaLe := fun a b => by
  unfold alertaLe
  exact inferInstance

/-- Modelled from the spec: `buildAlerts(catalog, config, today)` (section 4.2):
the classifier is run over every product, products classified None are left
out and the records are ordered by severity and code. The endpoint `/alertas`
that builds the list is not among the sources. -/
def buildAlerts (parse : String → Option Int) (configuracion : Configuracion) (ahora : Int)
    (catalogo : List Producto) : List Alerta :=
  (catalogo.filterMap (alertaDe parse configuracion ahora)).insertionSort alertaLe

/-! ## The settings tab and the product form -/

/-- The initial value of the `configuracion` state. -/
def configuracionInicial : Configuracion := ⟨10, 2⟩

/-- The white space and line terminators that `parseInt` and `parseFloat` skip
at the start of a text. -/
def isWhiteSpace (c : Char) : Bool :=
  c.toNat = 9 || c.toNat = 10 || c.toNat = 11 || c.toNat = 12 || c.toNat = 13 ||
  c.toNat = 32 || c.toNat = 160 || c.toNat = 5760 ||
  (8192 ≤ c.toNat && c.toNat ≤ 8202) || c.toNat = 8232 || c.toNat = 8233 ||
  c.toNat = 8239 || c.toNat = 8287 || c.toNat = 12288 || c.toNat = 65279

/-- The value of a character as a digit (`0` to `9`, then `a` to `f` in either
case), none for any other character. -/
def digitOf (c : Char) : Option Nat :=
  if 48 ≤ c.toNat ∧ c.toNat ≤ 57 then some (c.toNat - 48)
  else if 97 ≤ c.toNat ∧ c.toNat ≤ 102 then some (c.toNat - 87)
  else if 65 ≤ c.toNat ∧ c.toNat ≤ 70 then some (c.toNat - 55)
  else none

/-- The digits of the longest run of radix-`radix` digits at the head of a
text. -/
def leadingDigits (radix : Nat) : List Char → List Nat
  | [] => []
  | c :: cs =>
    match digitOf c with
    | some d => if d < radix then d :: leadingDigits radix cs else []
    | none => []

/-- The number written by a list of digits, most significant first. -/
def digitsToNat (radix : Nat) (ds : List Nat) : Nat :=
  ds.foldl (fun v d => radix * v + d) 0

/-- A text without its leading sign. -/
def stripSign : List Char → List Char
  | '-' :: resto => resto
  | '+' :: resto => resto
  | s => s

/-- The radix of a numeral and the numeral without its `0x` mark. -/
def stripHex : List Char → Nat × List Char
  | '0' :: 'x' :: resto => (16, resto)
  | '0' :: 'X' :: resto => (16, resto)
  | s => (10, s)

/-- Whether a text starts, after white space, with a minus sign. -/
def startsWithMinus (texto : String) : Bool :=
  (texto.data.dropWhile isWhiteSpace).head? == some '-'

/-- The radix and the digits `parseInt` reads in a text: leading white space is
skipped, then a sign and a `0x` mark, and the longest run of digits follows. -/
def parseIntDigits (texto : String) : Nat × List Nat :=
  ((stripHex (stripSign (texto.data.dropWhile isWhiteSpace))).1,
    leadingDigits (stripHex (stripSign (texto.data.dropWhile isWhiteSpace))).1
      (stripHex (stripSign (texto.data.dropWhile isWhiteSpace))).2)

/-- The function `parseInt(string)`, called without a radix: the number written
by the digits read, negated after a minus sign; `NaN` (`none`) when there is no
digit. The result is the integer written, exact. JavaScript returns the nearest
double: the same integer up to 2^53, a rounded integer of the same sign beyond
it, and an infinity from `2^1024 - 2^970` on (a run of 309 digits or more),
which an `Int` cannot hold. The sign and, below that bound, the order of
magnitude are those of the source; a statement about every text is made for
numbers below `overflowBound`. -/
def parseInt (texto : String) : Option Int :=
  if (parseIntDigits texto).2 = [] then none
  else if startsWithMinus texto then
    some (-(digitsToNat (parseIntDigits texto).1 (parseIntDigits texto).2 : Int))
  else some (digitsToNat (parseIntDigits texto).1 (parseIntDigits texto).2 : Int)

/-- The text after the longest run of decimal digits at its head. -/
def dropDigits : List Char → List Char
  | [] => []
  | c :: cs => if 48 ≤ c.toNat ∧ c.toNat ≤ 57 then dropDigits cs else c :: cs

/-- The decimal digits after a decimal point at the head of a text. -/
def fractionDigits : List Char → List Nat
  | '.' :: resto => leadingDigits 10 resto
  | _ => []

/-- The text after the fraction read by `fractionDigits`. -/
def dropFraction : List Char → List Char
  | '.' :: resto => dropDigits resto
  | s => s

/-- The exponent written at the head of a text (`e` or `E`, an optional sign,
digits), 0 when there is none or when no digit follows. -/
def exponentOf : List Char → Int
  | 'e' :: resto =>
    if resto.head? = some '-' then -(digitsToNat 10 (leadingDigits 10 (stripSign resto)))
    else digitsToNat 10 (leadingDigits 10 (stripSign resto))
  | 'E' :: resto =>
    if resto.head? = some '-' then -(digitsToNat 10 (leadingDigits 10 (stripSign resto)))
    else digitsToNat 10 (leadingDigits 10 (stripSign resto))
  | _ => 0

/-- The decimal numeral at the head of a text (digits, an optional fraction, an
optional exponent): the number written by its digits, the number of fraction
digits and the exponent; none when there is no digit. -/
def decimalParts (s : List Char) : Option (Nat × Nat × Int) :=
  if leadingDigits 10 s = [] ∧ fractionDigits (dropDigits s) = [] then none
  else
    some (digitsToNat 10 (leadingDigits 10 s ++ fractionDigits (dropDigits s)),
      (fractionDigits (dropDigits s)).length,
      exponentOf (dropFraction (dropDigits s)))

/-- The function `parseFloat(string)` on a numeral with digits: leading white
space is skipped and the longest decimal numeral that follows (sign, digits,
fraction, exponent) is the result; `NaN` (`none`) when there is none. The value
is the decimal written, exact. JavaScript returns the nearest double: a number
of the same sign, or 0 for a number too small (`1e-400`), and an infinity from
`2^1024 - 2^970` on (`1e400`), which a `Rat` cannot hold. The numeral
`Infinity`, which JavaScript also reads as an infinity, is left out: the
result here is `none` (see `readsInfinity`). A statement about every text is
made for texts that are not that numeral and for numbers below
`overflowBound`. -/
def parseFloat (texto : String) : Option Rat :=
  match decimalParts (stripSign (texto.data.dropWhile isWhiteSpace)) with
  | none => none
  | some (m, k, e) =>
    if startsWithMinus texto then some (-((m : Rat) / (10 : Rat) ^ k * (10 : Rat) ^ e))
    else some ((m : Rat) / (10 : Rat) ^ k * (10 : Rat) ^ e)

/-- The expression `value || porDefecto` on a number: `NaN` and 0 are falsy. -/
def orDefault {α : Type} [Zero α] [DecidableEq α] (value : Option α) (porDefecto : α) : α :=
  match value with
  | some x => if x = 0 then porDefecto else x
  | none => porDefecto

/-- The value the change handler of the low-stock field passes to
`actualizarConfiguracion`: `parseInt(e.target.value) || 0`. -/
def onChangeStockBajoLimite (value : String) : Int := orDefault (parseInt value) 0

/-- The value the change handler of the expiry-alert field passes to
`actualizarConfiguracion`: `parseInt(e.target.value) || 1`. -/
def onChangeVencimientoAlertaMeses (value : String) : Int := orDefault (parseInt value) 1

/-- A numeric field of the `productoForm` state: the text typed in the input
(`e.target.value`), or a number put there by the component (the initial 0, or
the value of the product being edited). -/
inductive Campo (α : Type) where
  | texto (s : String)
  | numero (n : α)
  deriving DecidableEq

/-- The `productoForm` state. -/
structure ProductoForm where
  codigo : String
  descripcion : String
  unidad_venta : String
  stock_actual : Campo Int
  precio_venta : Campo Rat
  fecha_ingreso : String
  fecha_vencimiento : String
  deriving DecidableEq

/-- The object `data` that `handleProductoSubmit` sends. -/
structure ProductoData where
  codigo : String
  descripcion : String
  unidad_venta : String
  stock_actual : Int
  precio_venta : Rat
  fecha_ingreso : Option String
  fecha_vencimiento : Option String
  deriving DecidableEq

/-- The character of a decimal digit. -/
def digitChar (d : Nat) : Char := Char.ofNat (48 + d)

/-- The decimal digits of a natural number, most significant first, placed
before `acc`; `fuel` bounds the number of digits. -/
def natDigitsAux : Nat → Nat → List Char → List Char
  | 0, _, acc => acc
  | fuel + 1, n, acc =>
    if n < 10 then digitChar n :: acc
    else natDigitsAux fuel (n / 10) (digitChar (n % 10) :: acc)

/-- The decimal digits of a natural number, most significant first. -/
def natDigits (n : Nat) : List Char := natDigitsAux (n + 1) n []

/-- A list of digit characters without its trailing zeros. -/
def dropTrailingZeros (cs : List Char) : List Char :=
  (cs.reverse.dropWhile (fun c => c = '0')).reverse

/-- The text `ToString` prints for an integer (Number::toString, radix 10): the
decimal digits below 10^21; from 10^21 on the exponent form, first digit, the
other digits after a point, `e+` and the exponent. The digits are those of the
integer. -/
def numberToString (n : Int) : String :=
  ⟨(if n < 0 then ['-'] else []) ++
    (if n.natAbs < 10 ^ 21 then natDigits n.natAbs
    else
      (natDigits n.natAbs).take 1 ++
        (if dropTrailingZeros ((natDigits n.natAbs).drop 1) = [] then []
        else '.' :: dropTrailingZeros ((natDigits n.natAbs).drop 1)) ++
        ['e', '+'] ++ natDigits ((natDigits n.natAbs).length - 1))⟩

/-- The call `parseInt(productoForm.stock_actual)`: a number in the field is
first printed by `ToString`. -/
def parseIntCampo : Campo Int → Option Int
  | Campo.texto s => parseInt s
  | Campo.numero n => parseInt (numberToString n)

/-- The call `parseFloat(productoForm.precio_venta)`: a number in the field is
first printed by `ToString`, and the digits `ToString` prints are those that
parse back to the same number (Number::toString), so the result is that
number. -/
def parseFloatCampo : Campo Rat → Option Rat
  | Campo.texto s => parseFloat s
  | Campo.numero x => some x

/-- The object `data` built by `handleProductoSubmit` from the form. -/
def handleProductoSubmit (productoForm : ProductoForm) : ProductoData :=
  { codigo := productoForm.codigo
    descripcion := productoForm.descripcion
    unidad_venta := productoForm.unidad_venta
    stock_actual := orDefault (parseIntCampo productoForm.stock_actual) 0
    precio_venta := orDefault (parseFloatCampo productoForm.precio_venta) 0
    fecha_ingreso :=
      if productoForm.fecha_ingreso = "" then none else some productoForm.fecha_ingreso
    fecha_vencimiento :=
      if productoForm.fecha_vencimiento = "" then none
      else some productoForm.fecha_vencimiento }

/-- The expression `value || porDefecto` on a nullable string: `null` and `''`
are falsy. -/
def strOr (value : Option String) (porDefecto : String) : String :=
  match value with
  | some s => if s = "" then porDefecto else s
  | none => porDefecto

/-- The form `editarItem(item, 'producto')` puts in `productoForm`. -/
def editarItem (item : Producto) : ProductoForm :=
  { codigo := strOr (some item.codigo) ""
    descripcion := strOr (some item.descripcion) ""
    unidad_venta := strOr (some item.unidad_venta) "Unidades"
    stock_actual := Campo.numero (orDefault (some item.stock_actual) 0)
    precio_venta := Campo.numero (orDefault (some item.precio_venta) 0)
    fecha_ingreso := strOr item.fecha_ingreso ""
    fecha_vencimiento := strOr item.fecha_vencimiento "" }

/-- The lower-casing of ASCII letters and of the Greek capital letters, with
the final-sigma rule of the Unicode special casing (a capital sigma after a
letter and not before a letter becomes the final form): what `toLowerCase` does
on text made of these letters, digits and spaces; used at concrete inputs. -/
def greekLowerAux : Bool → List Char → List Char
  | _, [] => []
  | trasLetra, c :: resto =>
    (if c.toNat = 931 then
        (if trasLetra ∧ ¬ (resto.head?.any Char.isAlpha ∨
            resto.head?.any (fun d => 913 ≤ d.toNat ∧ d.toNat ≤ 969)) then Char.ofNat 962
          else Char.ofNat 963)
      else if 913 ≤ c.toNat ∧ c.toNat ≤ 937 then Char.ofNat (c.toNat + 32)
      else c.toLower) ::
      greekLowerAux (c.isAlpha || (913 ≤ c.toNat && c.toNat ≤ 969)) resto

/-- The function `greekLowerAux` on strings. -/
def greekLower (texto : String) : String := ⟨greekLowerAux false texto.data⟩

/-! ## Letter case and the range of numbers -/

/-- The lower-case form of a single character, whatever its position, for ASCII
letters and Greek capital letters (the Unicode simple case mapping: a capital
sigma gives the medial form); used at concrete inputs. -/
def greekLowerChar (c : Char) : Char :=
  if 913 ≤ c.toNat ∧ c.toNat ≤ 937 then Char.ofNat (c.toNat + 32) else c.toLower

/-- Follows the claim's words: two texts differ only in letter case when their
characters, taken one by one, have the same lower-case form (`lowerChar` gives
the lower-case form of a character). -/
@[reducible] def sameUpToCase (lowerChar : Char → Char) (a b : String) : Prop :=
  a.data.map lowerChar = b.data.map lowerChar

/-- A text that `toLowerCase` lower-cases character by character: its
lower-casing is the text of the lower-case forms of its characters. -/
@[reducible] def lowersCharwise (toLowerCase : String → String) (lowerChar : Char → Char)
    (s : String) : Prop :=
  toLowerCase s = ⟨s.data.map lowerChar⟩

/-- Follows the claim's words: `b` is `a` with the letter case changed, for two
texts that `toLowerCase` lower-cases character by character. -/
@[reducible] def caseVariant (toLowerCase : String → String) (lowerChar : Char → Char)
    (a b : String) : Prop :=
  lowersCharwise toLowerCase lowerChar a ∧ lowersCharwise toLowerCase lowerChar b ∧
    sameUpToCase lowerChar a b

/-- The relation `caseVariant` on a field that can be `null`: both absent, or
both present and one the other with the letter case changed. -/
@[reducible] def caseVariantOption (toLowerCase : String → String) (lowerChar : Char → Char) :
    Option String → Option String → Prop
  | none, none => True
  | some a, some b => caseVariant toLowerCase lowerChar a b
  | _, _ => False

/-- The least magnitude that JavaScript reads as `Infinity`: `parseInt` and
`parseFloat` round the number written in a text to the nearest double, and from
`2^1024 - 2^970` on that is an infinity. The embedding keeps the number written,
exact, and cannot hold an infinity, so a statement about every text is made
for numbers below this bound. -/
def overflowBound : Nat := 2 ^ 1024 - 2 ^ 970

/-- Whether a text starts, after white space and a sign, with the numeral
`Infinity`: `parseFloat` reads such a text as an infinity, which the embedding
cannot hold and `parseFloat` here leaves out. -/
def readsInfinity (texto : String) : Bool :=
  "Infinity".data.isPrefixOf (stripSign (texto.data.dropWhile isWhiteSpace))

/-! ## Lemmas on the calendar arithmetic -/

theorem DayFromYear_succ (y : Int) : DayFromYear (y + 1) = DayFromYear y + DaysInYear y := by
  unfold DayFromYear DaysInYear
  split_ifs <;> omega

theorem DayFromYear_pred_le (d y : Int) (h1 : 146097 * (y - 1970) ≤ 400 * d) :
    DayFromYear (y - 1) ≤ d := by
  unfold DayFromYear
  omega

theorem lt_DayFromYear_add_two (d y : Int) (h1 : 400 * d < 146097 * (y - 1970) + 146097) :
    d < DayFromYear (y + 2) := by
  unfold DayFromYear
  omega

/-- The year found by `yearFromDay` contains the day: it is the year
`YearFromTime` is defined to be. -/
theorem yearFromDay_spec (d : Int) :
    DayFromYear (yearFromDay d) ≤ d ∧ d < DayFromYear (yearFromDay d + 1) := by
  have hlo := DayFromYear_pred_le d (1970 + (400 * d) / 146097) (by omega)
  have hhi := lt_DayFromYear_add_two d (1970 + (400 * d) / 146097) (by omega)
  unfold yearFromDay
  simp only []
  generalize 1970 + (400 * d) / 146097 = y at hlo hhi ⊢
  have e1 : y - 1 + 1 = y := by ring
  have e2 : y + 1 + 1 = y + 2 := by ring
  split_ifs with h1 h2
  · rw [e2]; exact ⟨h1, hhi⟩
  · exact ⟨h2, by omega⟩
  · rw [e1]; exact ⟨hlo, by omega⟩

theorem DaysInYear_eq (y : Int) : DaysInYear y = 365 + leapOfYear y := by
  unfold leapOfYear DaysInYear
  split_ifs <;> omega

theorem leapOfYear_cases (y : Int) : leapOfYear y = 0 ∨ leapOfYear y = 1 := by
  unfold leapOfYear
  split_ifs <;> simp

theorem DayFromYear_mono {y z : Int} (h : y ≤ z) : DayFromYear y ≤ DayFromYear z := by
  unfold DayFromYear
  omega

theorem DayFromYear_lt {y z : Int} (h : y < z) : DayFromYear y < DayFromYear z := by
  have h1 : DayFromYear (y + 1) ≤ DayFromYear z := DayFromYear_mono (by omega)
  have h2 := DayFromYear_succ y
  have h3 := DaysInYear_eq y
  rcases leapOfYear_cases y with h4 | h4 <;> omega

theorem yearFromDay_unique {d y : Int} (h1 : DayFromYear y ≤ d) (h2 : d < DayFromYear (y + 1)) :
    yearFromDay d = y := by
  obtain ⟨h3, h4⟩ := yearFromDay_spec d
  by_contra hne
  rcases lt_or_gt_of_ne hne with h | h
  · have := DayFromYear_mono (show yearFromDay d + 1 ≤ y by omega)
    omega
  · have := DayFromYear_mono (show y + 1 ≤ yearFromDay d by omega)
    omega

theorem Day_MakeDate (day tod : Int) (h0 : 0 ≤ tod) (h1 : tod < msPerDay) :
    Day (MakeDate day tod) = day := by
  unfold Day MakeDate msPerDay at *
  omega

theorem TimeWithinDay_MakeDate (day tod : Int) (h0 : 0 ≤ tod) (h1 : tod < msPerDay) :
    TimeWithinDay (MakeDate day tod) = tod := by
  unfold TimeWithinDay MakeDate msPerDay at *
  omega

theorem TimeWithinDay_bounds (t : Int) : 0 ≤ TimeWithinDay t ∧ TimeWithinDay t < msPerDay := by
  unfold TimeWithinDay msPerDay
  omega

theorem MakeDate_Day (t : Int) : MakeDate (Day t) (TimeWithinDay t) = t := by
  unfold MakeDate Day TimeWithinDay msPerDay
  omega

theorem DayWithinYear_bounds (t : Int) :
    0 ≤ DayWithinYear t ∧ DayWithinYear t < 365 + InLeapYear t := by
  have h := yearFromDay_spec (Day t)
  have h2 := DayFromYear_succ (YearFromTime t)
  have h3 := DaysInYear_eq (YearFromTime t)
  unfold DayWithinYear InLeapYear
  unfold YearFromTime at *
  omega

theorem monthStart_spec (m leap : Int) (h0 : 0 ≤ m) (h1 : m ≤ 11) :
    (m = 0 ∧ monthStart m leap = 0) ∨ (m = 1 ∧ monthStart m leap = 31) ∨
    (m = 2 ∧ monthStart m leap = 59 + leap) ∨ (m = 3 ∧ monthStart m leap = 90 + leap) ∨
    (m = 4 ∧ monthStart m leap = 120 + leap) ∨ (m = 5 ∧ monthStart m leap = 151 + leap) ∨
    (m = 6 ∧ monthStart m leap = 181 + leap) ∨ (m = 7 ∧ monthStart m leap = 212 + leap) ∨
    (m = 8 ∧ monthStart m leap = 243 + leap) ∨ (m = 9 ∧ monthStart m leap = 273 + leap) ∨
    (m = 10 ∧ monthStart m leap = 304 + leap) ∨
    (m = 11 ∧ monthStart m leap = 334 + leap) := by
  have hm : m = 0 ∨ m = 1 ∨ m = 2 ∨ m = 3 ∨ m = 4 ∨ m = 5 ∨ m = 6 ∨ m = 7 ∨ m = 8 ∨
      m = 9 ∨ m = 10 ∨ m = 11 := by omega
  rcases hm with h | h | h | h | h | h | h | h | h | h | h | h <;> subst h <;>
    simp [monthStart]

theorem daysInMonth_spec (m leap : Int) :
    (m = 1 ∧ daysInMonth m leap = 28 + leap) ∨
    ((m = 3 ∨ m = 5 ∨ m = 8 ∨ m = 10) ∧ daysInMonth m leap = 30) ∨
    (m ≠ 1 ∧ m ≠ 3 ∧ m ≠ 5 ∧ m ≠ 8 ∧ m ≠ 10 ∧ daysInMonth m leap = 31) := by
  unfold daysInMonth
  by_cases h1 : m = 1
  · simp [h1]
  · by_cases h2 : m = 3 ∨ m = 5 ∨ m = 8 ∨ m = 10
    · rw [if_neg h1, if_pos h2]; omega
    · rw [if_neg h1, if_neg h2]; omega

theorem monthOfDayInYear_spec (dwy leap : Int) :
    (dwy < 31 ∧ monthOfDayInYear dwy leap = 0) ∨
    (31 ≤ dwy ∧ dwy < 59 + leap ∧ monthOfDayInYear dwy leap = 1) ∨
    (59 + leap ≤ dwy ∧ dwy < 90 + leap ∧ monthOfDayInYear dwy leap = 2) ∨
    (90 + leap ≤ dwy ∧ dwy < 120 + leap ∧ monthOfDayInYear dwy leap = 3) ∨
    (120 + leap ≤ dwy ∧ dwy < 151 + leap ∧ monthOfDayInYear dwy leap = 4) ∨
    (151 + leap ≤ dwy ∧ dwy < 181 + leap ∧ monthOfDayInYear dwy leap = 5) ∨
    (181 + leap ≤ dwy ∧ dwy < 212 + leap ∧ monthOfDayInYear dwy leap = 6) ∨
    (212 + leap ≤ dwy ∧ dwy < 243 + leap ∧ monthOfDayInYear dwy leap = 7) ∨
    (243 + leap ≤ dwy ∧ dwy < 273 + leap ∧ monthOfDayInYear dwy leap = 8) ∨
    (273 + leap ≤ dwy ∧ dwy < 304 + leap ∧ monthOfDayInYear dwy leap = 9) ∨
    (304 + leap ≤ dwy ∧ dwy < 334 + leap ∧ monthOfDayInYear dwy leap = 10) ∨
    (334 + leap ≤ dwy ∧ monthOfDayInYear dwy leap = 11) := by
  unfold monthOfDayInYear
  by_cases c0 : dwy < 31
  · left; exact ⟨c0, if_pos c0⟩
  rw [if_neg c0]
  by_cases c1 : dwy < 59 + leap
  · right; left; exact ⟨by omega, c1, if_pos c1⟩
  rw [if_neg c1]
  by_cases c2 : dwy < 90 + leap
  · right; right; left; exact ⟨by omega, c2, if_pos c2⟩
  rw [if_neg c2]
  by_cases c3 : dwy < 120 + leap
  · right; right; right; left; exact ⟨by omega, c3, if_pos c3⟩
  rw [if_neg c3]
  by_cases c4 : dwy < 151 + leap
  · right; right; right; right; left; exact ⟨by omega, c4, if_pos c4⟩
  rw [if_neg c4]
  by_cases c5 : dwy < 181 + leap
  · right; right; right; right; right; left; exact ⟨by omega, c5, if_pos c5⟩
  rw [if_neg c5]
  by_cases c6 : dwy < 212 + leap
  · right; right; right; right; right; right; left; exact ⟨by omega, c6, if_pos c6⟩
  rw [if_neg c6]
  by_cases c7 : dwy < 243 + leap
  · right; right; right; right; right; right; right; left; exact ⟨by omega, c7, if_pos c7⟩
  rw [if_neg c7]
  by_cases c8 : dwy < 273 + leap
  · right; right; right; right; right; right; right; right; left
    exact ⟨by omega, c8, if_pos c8⟩
  rw [if_neg c8]
  by_cases c9 : dwy < 304 + leap
  · right; right; right; right; right; right; right; right; right; left
    exact ⟨by omega, c9, if_pos c9⟩
  rw [if_neg c9]
  by_cases c10 : dwy < 334 + leap
  · right; right; right; right; right; right; right; right; right; right; left
    exact ⟨by omega, c10, if_pos c10⟩
  rw [if_neg c10]
  right; right; right; right; right; right; right; right; right; right; right
  exact ⟨by omega, rfl⟩

theorem month_table {dwy leap : Int} (h0 : 0 ≤ dwy) (h1 : dwy < 365 + leap) :
    0 ≤ monthOfDayInYear dwy leap ∧ monthOfDayInYear dwy leap ≤ 11 ∧
      monthStart (monthOfDayInYear dwy leap) leap ≤ dwy ∧
      dwy < monthStart (monthOfDayInYear dwy leap) leap +
        daysInMonth (monthOfDayInYear dwy leap) leap := by
  have hm := monthOfDayInYear_spec dwy leap
  have hb : 0 ≤ monthOfDayInYear dwy leap ∧ monthOfDayInYear dwy leap ≤ 11 := by omega
  have hs := monthStart_spec (monthOfDayInYear dwy leap) leap hb.1 hb.2
  have hd := daysInMonth_spec (monthOfDayInYear dwy leap) leap
  refine ⟨hb.1, hb.2, ?_⟩
  generalize monthStart (monthOfDayInYear dwy leap) leap = s at hs ⊢
  generalize daysInMonth (monthOfDayInYear dwy leap) leap = n at hd ⊢
  generalize monthOfDayInYear dwy leap = m at hm hs hd hb
  omega

theorem month_table_inv {m D leap : Int} (hm0 : 0 ≤ m) (hm1 : m ≤ 11) (hD0 : 1 ≤ D)
    (hD1 : D ≤ daysInMonth m leap) (hl : leap = 0 ∨ leap = 1) :
    monthOfDayInYear (monthStart m leap + D - 1) leap = m ∧
      monthStart m leap + D - 1 < 365 + leap := by
  have hs := monthStart_spec m leap hm0 hm1
  have hd := daysInMonth_spec m leap
  have hm := monthOfDayInYear_spec (monthStart m leap + D - 1) leap
  generalize monthOfDayInYear (monthStart m leap + D - 1) leap = r at hm ⊢
  generalize monthStart m leap = s at hs hm ⊢
  generalize daysInMonth m leap = n at hd hD1
  omega

theorem InLeapYear_cases (t : Int) : InLeapYear t = 0 ∨ InLeapYear t = 1 :=
  leapOfYear_cases _

theorem MonthFromTime_bounds (t : Int) : 0 ≤ MonthFromTime t ∧ MonthFromTime t ≤ 11 := by
  have h := DayWithinYear_bounds t
  have := month_table h.1 h.2
  exact ⟨this.1, this.2.1⟩

theorem DateFromTime_bounds (t : Int) :
    1 ≤ DateFromTime t ∧
      DateFromTime t ≤ daysInMonth (MonthFromTime t) (InLeapYear t) := by
  have h := DayWithinYear_bounds t
  have := month_table h.1 h.2
  unfold DateFromTime MonthFromTime
  omega

theorem daysInMonth_bounds (m leap : Int) (hl : leap = 0 ∨ leap = 1) :
    28 ≤ daysInMonth m leap ∧ daysInMonth m leap ≤ 31 := by
  have := daysInMonth_spec m leap
  omega

theorem MakeDay_fields (t : Int) :
    MakeDay (YearFromTime t) (MonthFromTime t) (DateFromTime t) = Day t := by
  have hm := MonthFromTime_bounds t
  have e1 : MonthFromTime t / 12 = 0 := by omega
  have e2 : MonthFromTime t % 12 = MonthFromTime t := by omega
  unfold MakeDay
  simp only [e1, e2, add_zero]
  unfold DateFromTime DayWithinYear InLeapYear
  omega

theorem MakeDay_eq (year month date : Int) :
    MakeDay year month date =
      DayFromYear (year + month / 12) +
        monthStart (month % 12) (leapOfYear (year + month / 12)) + date - 1 := rfl

theorem MakeDay_date (year month date : Int) :
    MakeDay year month date = MakeDay year month 1 + (date - 1) := by
  rw [MakeDay_eq, MakeDay_eq]
  omega

theorem monthStart_succ (k leap : Int) (h0 : 0 ≤ k) (h1 : k < 11) :
    monthStart (k + 1) leap = monthStart k leap + daysInMonth k leap := by
  have a := monthStart_spec k leap h0 (by omega)
  have b := monthStart_spec (k + 1) leap (by omega) (by omega)
  have c := daysInMonth_spec k leap
  omega

theorem MakeDay_succ_month (year month : Int) :
    MakeDay year (month + 1) 1 =
      MakeDay year month 1 + daysInMonth (month % 12) (leapOfYear (year + month / 12)) := by
  unfold MakeDay
  by_cases h : month % 12 = 11
  · have e1 : (month + 1) / 12 = month / 12 + 1 := by omega
    have e2 : (month + 1) % 12 = 0 := by omega
    have e3 : year + (month / 12 + 1) = year + month / 12 + 1 := by ring
    simp only [e1, e2, h, e3]
    have a := DayFromYear_succ (year + month / 12)
    have b := DaysInYear_eq (year + month / 12)
    have c : monthStart 0 (leapOfYear (year + month / 12 + 1)) = 0 := by simp [monthStart]
    have d : monthStart 11 (leapOfYear (year + month / 12)) =
        334 + leapOfYear (year + month / 12) := by simp [monthStart]
    have e : daysInMonth 11 (leapOfYear (year + month / 12)) = 31 := by simp [daysInMonth]
    omega
  · have e1 : (month + 1) / 12 = month / 12 := by omega
    have e2 : (month + 1) % 12 = month % 12 + 1 := by omega
    simp only [e1, e2]
    have := monthStart_succ (month % 12) (leapOfYear (year + month / 12)) (by omega) (by omega)
    omega

theorem MakeDay_mono_month (year month date : Int) (n : Nat) :
    MakeDay year month date ≤ MakeDay year (month + n) date := by
  induction n with
  | zero => simp
  | succ k ih =>
    have h1 := MakeDay_succ_month year (month + k)
    have h2 := daysInMonth_bounds ((month + k) % 12) (leapOfYear (year + (month + k) / 12))
      (leapOfYear_cases _)
    have h3 := MakeDay_date year (month + k) date
    have h4 := MakeDay_date year (month + k + 1) date
    have e : month + ((k + 1 : Nat) : Int) = month + k + 1 := by push_cast; ring
    rw [e]
    omega

theorem fields_MakeDate (Y M D tod : Int) (hD0 : 1 ≤ D)
    (hD1 : D ≤ daysInMonth (M % 12) (leapOfYear (Y + M / 12)))
    (h0 : 0 ≤ tod) (h1 : tod < msPerDay) :
    YearFromTime (MakeDate (MakeDay Y M D) tod) = Y + M / 12 ∧
      MonthFromTime (MakeDate (MakeDay Y M D) tod) = M % 12 ∧
      DateFromTime (MakeDate (MakeDay Y M D) tod) = D := by
  have hday := Day_MakeDate (MakeDay Y M D) tod h0 h1
  have hinv := @month_table_inv (M % 12) D (leapOfYear (Y + M / 12))
    (by omega) (by omega) hD0 hD1 (leapOfYear_cases _)
  have hs := monthStart_spec (M % 12) (leapOfYear (Y + M / 12)) (by omega) (by omega)
  have hl := leapOfYear_cases (Y + M / 12)
  have hs0 : 0 ≤ monthStart (M % 12) (leapOfYear (Y + M / 12)) := by omega
  clear hs
  have hy : YearFromTime (MakeDate (MakeDay Y M D) tod) = Y + M / 12 := by
    unfold YearFromTime
    rw [hday]
    apply yearFromDay_unique
    · rw [MakeDay_eq]; omega
    · have a := DayFromYear_succ (Y + M / 12)
      have b := DaysInYear_eq (Y + M / 12)
      rw [MakeDay_eq]; omega
  have hdwy : DayWithinYear (MakeDate (MakeDay Y M D) tod) =
      monthStart (M % 12) (leapOfYear (Y + M / 12)) + D - 1 := by
    unfold DayWithinYear
    rw [hday, hy, MakeDay_eq]
    omega
  have hm : MonthFromTime (MakeDate (MakeDay Y M D) tod) = M % 12 := by
    unfold MonthFromTime InLeapYear
    rw [hdwy, hy]
    exact hinv.1
  refine ⟨hy, hm, ?_⟩
  unfold DateFromTime InLeapYear
  rw [hdwy, hm, hy]
  omega

/-! ## Lemmas on `setMonth` and the classifier -/

theorem setMonth_eq_some {t month l : Int} (h : setMonth t month = some l) :
    l = MakeDate (MakeDay (YearFromTime t) month (DateFromTime t)) (TimeWithinDay t) := by
  unfold setMonth TimeClip at h
  split_ifs at h
  exact (Option.some.inj h).symm

/-- Moving a date forward by a non-negative number of months with `setMonth`
never yields an earlier instant. -/
theorem le_setMonth {t n l : Int} (hn : 0 ≤ n) (h : setMonth t (getMonth t + n) = some l) :
    t ≤ l := by
  have hl := setMonth_eq_some h
  have hmono := MakeDay_mono_month (YearFromTime t) (MonthFromTime t) (DateFromTime t) n.toNat
  rw [Int.toNat_of_nonneg hn, MakeDay_fields] at hmono
  have ht := MakeDate_Day t
  unfold getMonth at hl
  unfold MakeDate msPerDay at hl ht
  omega

theorem truthy_some {texto : String} (h : texto ≠ "") : truthy (some texto) = true := by
  simp [truthy, h]

/-- The classifier on a product that is neither out of stock nor low on stock
and carries an expiry text. -/
theorem getRowColor_expiry (parse : String → Option Int) (configuracion : Configuracion)
    (ahora : Int) (producto : Producto) (texto : String)
    (h0 : producto.stock_actual ≠ 0)
    (h1 : ¬ producto.stock_actual < configuracion.stock_bajo_limite)
    (hf : producto.fecha_vencimiento = some texto) (hne : texto ≠ "") :
    getRowColor parse configuracion ahora producto =
      if dateLe (parse texto) (fechaLimite configuracion ahora) then
        "bg-orange-100 border-orange-300"
      else "bg-white border-gray-200" := by
  unfold getRowColor
  rw [if_neg h0, if_neg h1, hf, truthy_some hne]
  simp

/-- The classifier on a product that is neither out of stock nor low on stock
and carries no expiry text. -/
theorem getRowColor_no_expiry (parse : String → Option Int) (configuracion : Configuracion)
    (ahora : Int) (producto : Producto)
    (h0 : producto.stock_actual ≠ 0)
    (h1 : ¬ producto.stock_actual < configuracion.stock_bajo_limite)
    (hf : producto.fecha_vencimiento = none ∨ producto.fecha_vencimiento = some "") :
    getRowColor parse configuracion ahora producto = "bg-white border-gray-200" := by
  unfold getRowColor
  rw [if_neg h0, if_neg h1]
  rcases hf with hf | hf <;> rw [hf] <;> simp [truthy]

/-- The classifier returns one of its four classes. -/
theorem getRowColor_cases (parse : String → Option Int) (configuracion : Configuracion)
    (ahora : Int) (producto : Producto) :
    getRowColor parse configuracion ahora producto = "bg-red-100 border-red-300" ∨
      getRowColor parse configuracion ahora producto = "bg-yellow-100 border-yellow-300" ∨
      getRowColor parse configuracion ahora producto = "bg-orange-100 border-orange-300" ∨
      getRowColor parse configuracion ahora producto = "bg-white border-gray-200" := by
  unfold getRowColor
  split_ifs <;> simp

/-- The classifier reads the stock and the expiry text of a product only. -/
theorem getRowColor_congr (parse : String → Option Int) (configuracion : Configuracion)
    (ahora : Int) (p q : Producto) (hs : p.stock_actual = q.stock_actual)
    (hf : p.fecha_vencimiento = q.fecha_vencimiento) :
    getRowColor parse configuracion ahora p = getRowColor parse configuracion ahora q := by
  unfold getRowColor
  rw [hs, hf]

/-! ## The classifier: claims -/

/-- C1: a product whose stock is 0 is classified Depleted (`bg-red-100
border-red-300`), for every parser, configuration, current date and expiry
text. -/
theorem getRowColor_stock_cero (parse : String → Option Int) (configuracion : Configuracion)
    (ahora : Int) (producto : Producto) (h : producto.stock_actual = 0) :
    getRowColor parse configuracion ahora producto = "bg-red-100 border-red-300" := by
  unfold getRowColor
  rw [if_pos h]

/-- Scenario D (a fortiori scenario A): stock 0 with an expiry one day ahead. -/
theorem getRowColor_stock_cero_witness :
    getRowColor isoParse ⟨10, 2⟩ 1738281600000
      ⟨"4", "D1", "Leche", "Unidades", 0, 5, none, some "2025-02-01"⟩ =
        "bg-red-100 border-red-300" :=
  getRowColor_stock_cero isoParse ⟨10, 2⟩ 1738281600000
    ⟨"4", "D1", "Leche", "Unidades", 0, 5, none, some "2025-02-01"⟩ (by decide)

/-- C2: a product with `0 < stock < stock_bajo_limite` is classified LowStock
(`bg-yellow-100 border-yellow-300`), for every current date and expiry text. -/
theorem getRowColor_stock_bajo (parse : String → Option Int) (configuracion : Configuracion)
    (ahora : Int) (producto : Producto) (h0 : 0 < producto.stock_actual)
    (h1 : producto.stock_actual < configuracion.stock_bajo_limite) :
    getRowColor parse configuracion ahora producto = "bg-yellow-100 border-yellow-300" := by
  unfold getRowColor
  rw [if_neg (by omega), if_pos h1]

/-- Scenario B: stock 5 under limit 10. -/
theorem getRowColor_stock_bajo_witness :
    getRowColor isoParse ⟨10, 2⟩ 1738281600000
      ⟨"2", "B1", "Arroz", "Cajas", 5, 3, none, none⟩ = "bg-yellow-100 border-yellow-300" :=
  getRowColor_stock_bajo isoParse ⟨10, 2⟩ 1738281600000
    ⟨"2", "B1", "Arroz", "Cajas", 5, 3, none, none⟩ (by decide) (by decide)

/-- C3: a product with positive stock, not under the low-stock limit, whose
expiry date `e` is on or before the limit date `l` (today moved forward by the
horizon with `setMonth`, the instant `l` itself included) is classified
ExpiringSoon (`bg-orange-100 border-orange-300`). -/
theorem getRowColor_proximo_vencer (parse : String → Option Int)
    (configuracion : Configuracion) (ahora : Int) (producto : Producto) (texto : String)
    (e l : Int) (h0 : 0 < producto.stock_actual)
    (h1 : configuracion.stock_bajo_limite ≤ producto.stock_actual)
    (hf : producto.fecha_vencimiento = some texto) (hne : texto ≠ "")
    (hp : parse texto = some e) (hl : fechaLimite configuracion ahora = some l)
    (hle : e ≤ l) :
    getRowColor parse configuracion ahora producto = "bg-orange-100 border-orange-300" := by
  rw [getRowColor_expiry parse configuracion ahora producto texto (by omega) (by omega) hf hne,
    hp, hl]
  simp [dateLe, hle]

/-- Scenario C, at the boundary: today is 2025-01-31, the horizon one month,
the limit 2025-03-03 and the expiry date 2025-03-03. -/
theorem getRowColor_proximo_vencer_witness :
    getRowColor isoParse ⟨10, 1⟩ 1738281600000
      ⟨"3", "C1", "Yogur", "Unidades", 20, 2, none, some "2025-03-03"⟩ =
        "bg-orange-100 border-orange-300" :=
  getRowColor_proximo_vencer isoParse ⟨10, 1⟩ 1738281600000
    ⟨"3", "C1", "Yogur", "Unidades", 20, 2, none, some "2025-03-03"⟩ "2025-03-03"
    1740960000000 1740960000000 (by decide) (by decide) rfl (by decide) (by decide)
    (by decide) (by decide)

/-- With today's day of the month present in the target month, clamped month
addition and `setMonth` give the same date. -/
theorem addMonthsClamped_eq_setMonth (t n : Int)
    (h : DateFromTime t ≤
      daysInMonth ((MonthFromTime t + n) % 12)
        (leapOfYear (YearFromTime t + (MonthFromTime t + n) / 12))) :
    addMonthsClamped t n = setMonth t (MonthFromTime t + n) := by
  unfold addMonthsClamped setMonth
  rw [min_eq_left h]

/-- C4, as stated, fails when "today plus the horizon" is the calendar date
(clamped month addition): on 2025-01-31 with a horizon of one month that date
is 2025-02-28; a product with stock 20 that expires on 2025-03-01, strictly
after it, is classified ExpiringSoon, because the limit date of the code is
2025-03-03. -/
theorem getRowColor_after_clamped_limit :
    addMonthsClamped 1738281600000 1 = some 1740700800000 ∧
    isoParse "2025-03-01" = some 1740787200000 ∧
    (1740700800000 : Int) < 1740787200000 ∧
    fechaLimite ⟨10, 1⟩ 1738281600000 = some 1740960000000 ∧
    getRowColor isoParse ⟨10, 1⟩ 1738281600000
      ⟨"5", "E1", "Queso", "Unidades", 20, 2, none, some "2025-03-01"⟩ =
        "bg-orange-100 border-orange-300" ∧
    getRowColor isoParse ⟨10, 1⟩ 1738281600000
      ⟨"5", "E1", "Queso", "Unidades", 20, 2, none, some "2025-03-01"⟩ ≠
        "bg-white border-gray-200" := by
  decide

/-- C4, amended: a product with positive stock, not under the low-stock limit,
is classified Normal (`bg-white border-gray-200`) when its expiry date is
absent (`null` or `''`), or strictly after the limit date of the code (today
moved forward by the horizon with `setMonth`), or strictly after the calendar
date (clamped month addition) while today's day of the month exists in the
target month, where the two dates are the same. -/
theorem getRowColor_normal (parse : String → Option Int) (configuracion : Configuracion)
    (ahora : Int) (producto : Producto) (h0 : 0 < producto.stock_actual)
    (h1 : configuracion.stock_bajo_limite ≤ producto.stock_actual)
    (hf : (producto.fecha_vencimiento = none ∨ producto.fecha_vencimiento = some "") ∨
      (∃ texto e l, producto.fecha_vencimiento = some texto ∧ parse texto = some e ∧
        fechaLimite configuracion ahora = some l ∧ l < e) ∨
      (∃ texto e c, producto.fecha_vencimiento = some texto ∧ parse texto = some e ∧
        addMonthsClamped ahora configuracion.vencimiento_alerta_meses = some c ∧ c < e ∧
        getDate ahora ≤
          daysInMonth ((getMonth ahora + configuracion.vencimiento_alerta_meses) % 12)
            (leapOfYear (getFullYear ahora +
              (getMonth ahora + configuracion.vencimiento_alerta_meses) / 12)))) :
    getRowColor parse configuracion ahora producto = "bg-white border-gray-200" := by
  have key : ∀ texto e l, producto.fecha_vencimiento = some texto → parse texto = some e →
      fechaLimite configuracion ahora = some l → l < e →
      getRowColor parse configuracion ahora producto = "bg-white border-gray-200" := by
    intro texto e l hf hp hl hlt
    by_cases hne : texto = ""
    · subst hne
      exact getRowColor_no_expiry parse configuracion ahora producto (by omega) (by omega)
        (Or.inr hf)
    · rw [getRowColor_expiry parse configuracion ahora producto texto (by omega) (by omega)
        hf hne, hp, hl]
      have : ¬ e ≤ l := by omega
      simp [dateLe, this]
  rcases hf with hf | ⟨texto, e, l, hf, hp, hl, hlt⟩ | ⟨texto, e, c, hf, hp, hc, hlt, hday⟩
  · exact getRowColor_no_expiry parse configuracion ahora producto (by omega) (by omega) hf
  · exact key texto e l hf hp hl hlt
  · rw [addMonthsClamped_eq_setMonth ahora configuracion.vencimiento_alerta_meses hday] at hc
    exact key texto e c hf hp hc hlt

/-- An expiry date one day after the limit date of the code (today is
2025-01-31, the horizon one month, the limit 2025-03-03, the expiry date
2025-03-04), and an expiry date one day after the calendar date (today is
2025-01-15, the horizon two months, the calendar date 2025-03-15, the expiry
date 2025-03-16). -/
theorem getRowColor_normal_witness :
    getRowColor isoParse ⟨10, 1⟩ 1738281600000
      ⟨"5", "E1", "Queso", "Unidades", 20, 2, none, some "2025-03-04"⟩ =
        "bg-white border-gray-200" ∧
    getRowColor isoParse ⟨10, 2⟩ 1736899200000
      ⟨"5", "E1", "Queso", "Unidades", 20, 2, none, some "2025-03-16"⟩ =
        "bg-white border-gray-200" :=
  ⟨getRowColor_normal isoParse ⟨10, 1⟩ 1738281600000
      ⟨"5", "E1", "Queso", "Unidades", 20, 2, none, some "2025-03-04"⟩ (by decide) (by decide)
      (Or.inr (Or.inl ⟨"2025-03-04", 1741046400000, 1740960000000, rfl, by decide, by decide,
        by decide⟩)),
    getRowColor_normal isoParse ⟨10, 2⟩ 1736899200000
      ⟨"5", "E1", "Queso", "Unidades", 20, 2, none, some "2025-03-16"⟩ (by decide) (by decide)
      (Or.inr (Or.inr ⟨"2025-03-16", 1742083200000, 1741996800000, rfl, by decide, by decide,
        by decide, by decide⟩))⟩

/-- C5: a product without an expiry date (`null` or `''`) is never classified
ExpiringSoon. -/
theorem getRowColor_sin_vencimiento (parse : String → Option Int)
    (configuracion : Configuracion) (ahora : Int) (producto : Producto)
    (hf : producto.fecha_vencimiento = none ∨ producto.fecha_vencimiento = some "") :
    getRowColor parse configuracion ahora producto ≠ "bg-orange-100 border-orange-300" := by
  unfold getRowColor
  have ht : truthy producto.fecha_vencimiento = false := by
    rcases hf with hf | hf <;> rw [hf] <;> simp [truthy]
  rw [ht]
  simp only [Bool.false_eq_true, if_false]
  split_ifs <;> decide

/-- A well-stocked product whose expiry text is the empty string. -/
theorem getRowColor_sin_vencimiento_witness :
    getRowColor isoParse ⟨10, 2⟩ 1738281600000
      ⟨"6", "F1", "Sal", "Unidades", 20, 1, none, some ""⟩ ≠
        "bg-orange-100 border-orange-300" :=
  getRowColor_sin_vencimiento isoParse ⟨10, 2⟩ 1738281600000
    ⟨"6", "F1", "Sal", "Unidades", 20, 1, none, some ""⟩ (Or.inr rfl)

/-- The calendar fields of the date `setMonth` produces: the time of day is
kept; when today's day-of-month exists in the target month the result is that
day of the target month, and otherwise it lies in the following month, as many
days in as the day-of-month exceeds the target month's length. -/
theorem setMonth_fields {t month l : Int} (h : setMonth t month = some l) :
    TimeWithinDay l = TimeWithinDay t ∧
    (DateFromTime t ≤ daysInMonth (month % 12) (leapOfYear (YearFromTime t + month / 12)) →
      YearFromTime l = YearFromTime t + month / 12 ∧ MonthFromTime l = month % 12 ∧
        DateFromTime l = DateFromTime t) ∧
    (daysInMonth (month % 12) (leapOfYear (YearFromTime t + month / 12)) < DateFromTime t →
      YearFromTime l = YearFromTime t + (month + 1) / 12 ∧
        MonthFromTime l = (month + 1) % 12 ∧
        DateFromTime l = DateFromTime t -
          daysInMonth (month % 12) (leapOfYear (YearFromTime t + month / 12))) := by
  have hl := setMonth_eq_some h
  have htod := TimeWithinDay_bounds t
  have hd := DateFromTime_bounds t
  have hd31 := daysInMonth_bounds (MonthFromTime t) (InLeapYear t) (InLeapYear_cases t)
  subst hl
  refine ⟨TimeWithinDay_MakeDate _ _ htod.1 htod.2, ?_, ?_⟩
  · intro hle
    exact fields_MakeDate _ _ _ _ hd.1 hle htod.1 htod.2
  · intro hlt
    have hL := daysInMonth_bounds (month % 12) (leapOfYear (YearFromTime t + month / 12))
      (leapOfYear_cases _)
    have hL2 := daysInMonth_bounds ((month + 1) % 12)
      (leapOfYear (YearFromTime t + (month + 1) / 12)) (leapOfYear_cases _)
    have e : MakeDay (YearFromTime t) month (DateFromTime t) =
        MakeDay (YearFromTime t) (month + 1)
          (DateFromTime t -
            daysInMonth (month % 12) (leapOfYear (YearFromTime t + month / 12))) := by
      have a := MakeDay_succ_month (YearFromTime t) month
      have b := MakeDay_date (YearFromTime t) month (DateFromTime t)
      have c := MakeDay_date (YearFromTime t) (month + 1)
        (DateFromTime t -
          daysInMonth (month % 12) (leapOfYear (YearFromTime t + month / 12)))
      omega
    rw [e]
    exact fields_MakeDate _ _ _ _ (by omega) (by omega) htod.1 htod.2

/-! ## The limit date: claims -/

/-- C6, as stated, fails: on 2025-01-31 with a horizon of one month the limit
date the classifier compares against is 2025-03-03 (month index 2, day 3), not
the last day of February that clamped month addition gives. -/
theorem fechaLimite_not_clamped :
    getMonth 1738281600000 = 0 ∧ getDate 1738281600000 = 31 ∧
    fechaLimite ⟨10, 1⟩ 1738281600000 = some 1740960000000 ∧
    getFullYear 1740960000000 = 2025 ∧ getMonth 1740960000000 = 2 ∧
    getDate 1740960000000 = 3 ∧
    addMonthsClamped 1738281600000 1 = some 1740700800000 ∧
    getMonth 1740700800000 = 1 ∧ getDate 1740700800000 = 28 ∧
    fechaLimite ⟨10, 1⟩ 1738281600000 ≠ addMonthsClamped 1738281600000 1 := by
  decide

/-- C6, amended: the limit date keeps today's time of day; it has today's
day-of-month in the target month whenever that day exists there; when it does
not, the limit date is in the month after the target month, on the day numbered
by the excess of today's day-of-month over the target month's length. -/
theorem fechaLimite_fields (configuracion : Configuracion) (ahora l : Int)
    (h : fechaLimite configuracion ahora = some l) :
    TimeWithinDay l = TimeWithinDay ahora ∧
    (getDate ahora ≤
        daysInMonth ((getMonth ahora + configuracion.vencimiento_alerta_meses) % 12)
          (leapOfYear (getFullYear ahora +
            (getMonth ahora + configuracion.vencimiento_alerta_meses) / 12)) →
      getFullYear l = getFullYear ahora +
          (getMonth ahora + configuracion.vencimiento_alerta_meses) / 12 ∧
        getMonth l = (getMonth ahora + configuracion.vencimiento_alerta_meses) % 12 ∧
        getDate l = getDate ahora) ∧
    (daysInMonth ((getMonth ahora + configuracion.vencimiento_alerta_meses) % 12)
          (leapOfYear (getFullYear ahora +
            (getMonth ahora + configuracion.vencimiento_alerta_meses) / 12)) <
        getDate ahora →
      getFullYear l = getFullYear ahora +
          (getMonth ahora + configuracion.vencimiento_alerta_meses + 1) / 12 ∧
        getMonth l = (getMonth ahora + configuracion.vencimiento_alerta_meses + 1) % 12 ∧
        getDate l = getDate ahora -
          daysInMonth ((getMonth ahora + configuracion.vencimiento_alerta_meses) % 12)
            (leapOfYear (getFullYear ahora +
              (getMonth ahora + configuracion.vencimiento_alerta_meses) / 12))) :=
  setMonth_fields h

/-- On 2025-01-15 with a horizon of two months the limit date is 2025-03-15; on
2025-01-31 with a horizon of one month it is 2025-03-03. -/
theorem fechaLimite_fields_witness :
    (getFullYear 1741996800000 = 2025 ∧ getMonth 1741996800000 = 2 ∧
      getDate 1741996800000 = 15) ∧
    (getFullYear 1740960000000 = 2025 ∧ getMonth 1740960000000 = 2 ∧
      getDate 1740960000000 = 3) :=
  ⟨(fechaLimite_fields ⟨10, 2⟩ 1736899200000 1741996800000 (by decide)).2.1 (by decide),
    (fechaLimite_fields ⟨10, 1⟩ 1738281600000 1740960000000 (by decide)).2.2 (by decide)⟩

/-- C7, as stated, fails: with a horizon of 4000000 months the limit date is
not a representable date (`setMonth` yields an invalid date), the comparison
is false, and a product with stock 20 that expired on 2020-01-01 is classified
Normal on 2025-01-31. -/
theorem getRowColor_overdue_invalid_limit :
    isoParse "2020-01-01" = some 1577836800000 ∧ (1577836800000 : Int) < 1738281600000 ∧
    fechaLimite ⟨10, 4000000⟩ 1738281600000 = none ∧
    getRowColor isoParse ⟨10, 4000000⟩ 1738281600000
      ⟨"7", "G1", "Pan", "Unidades", 20, 1, none, some "2020-01-01"⟩ =
        "bg-white border-gray-200" := by
  decide

/-- C7, amended: a product with positive stock, not under the low-stock limit,
whose expiry date is before today is classified ExpiringSoon for every horizon
of at least one month for which the limit date is a representable date. -/
theorem getRowColor_overdue (parse : String → Option Int) (configuracion : Configuracion)
    (ahora : Int) (producto : Producto) (texto : String) (e l : Int)
    (h0 : 0 < producto.stock_actual)
    (h1 : configuracion.stock_bajo_limite ≤ producto.stock_actual)
    (hf : producto.fecha_vencimiento = some texto) (hne : texto ≠ "")
    (hp : parse texto = some e) (hpast : e < ahora)
    (hn : 1 ≤ configuracion.vencimiento_alerta_meses)
    (hl : fechaLimite configuracion ahora = some l) :
    getRowColor parse configuracion ahora producto = "bg-orange-100 border-orange-300" := by
  have hle : ahora ≤ l := le_setMonth (by omega) hl
  rw [getRowColor_expiry parse configuracion ahora producto texto (by omega) (by omega) hf hne,
    hp, hl]
  have : e ≤ l := by omega
  simp [dateLe, this]

/-- A product with stock 20 that expired on 2020-01-01, seen on 2025-01-31 with
a horizon of two months. -/
theorem getRowColor_overdue_witness :
    getRowColor isoParse ⟨10, 2⟩ 1738281600000
      ⟨"7", "G1", "Pan", "Unidades", 20, 1, none, some "2020-01-01"⟩ =
        "bg-orange-100 border-orange-300" :=
  getRowColor_overdue isoParse ⟨10, 2⟩ 1738281600000
    ⟨"7", "G1", "Pan", "Unidades", 20, 1, none, some "2020-01-01"⟩ "2020-01-01"
    1577836800000 1743379200000 (by decide) (by decide) rfl (by decide) (by decide)
    (by decide) (by decide) (by decide)

/-- C8: the classifier returns one of four style tags, and the four tags are
pairwise distinct. -/
theorem getRowColor_tags (parse : String → Option Int) (configuracion : Configuracion)
    (ahora : Int) (producto : Producto) :
    (getRowColor parse configuracion ahora producto = "bg-red-100 border-red-300" ∨
      getRowColor parse configuracion ahora producto = "bg-yellow-100 border-yellow-300" ∨
      getRowColor parse configuracion ahora producto = "bg-orange-100 border-orange-300" ∨
      getRowColor parse configuracion ahora producto = "bg-white border-gray-200") ∧
    "bg-red-100 border-red-300" ≠ "bg-yellow-100 border-yellow-300" ∧
    "bg-red-100 border-red-300" ≠ "bg-orange-100 border-orange-300" ∧
    "bg-red-100 border-red-300" ≠ "bg-white border-gray-200" ∧
    "bg-yellow-100 border-yellow-300" ≠ "bg-orange-100 border-orange-300" ∧
    "bg-yellow-100 border-yellow-300" ≠ "bg-white border-gray-200" ∧
    "bg-orange-100 border-orange-300" ≠ "bg-white border-gray-200" := by
  refine ⟨?_, by decide, by decide, by decide, by decide, by decide, by decide⟩
  unfold getRowColor
  split_ifs <;> simp

/-- C9: the stock cell and the row classification agree: the cell is
`text-red-600` exactly when the row is Depleted, `text-yellow-600` exactly when
the row is LowStock, and `text-gray-900` exactly when the row is ExpiringSoon
or Normal. -/
theorem stockCellColor_agrees (parse : String → Option Int) (configuracion : Configuracion)
    (ahora : Int) (producto : Producto) :
    (stockCellColor configuracion producto = "text-red-600" ↔
      getRowColor parse configuracion ahora producto = "bg-red-100 border-red-300") ∧
    (stockCellColor configuracion producto = "text-yellow-600" ↔
      getRowColor parse configuracion ahora producto = "bg-yellow-100 border-yellow-300") ∧
    (stockCellColor configuracion producto = "text-gray-900" ↔
      (getRowColor parse configuracion ahora producto = "bg-orange-100 border-orange-300" ∨
        getRowColor parse configuracion ahora producto = "bg-white border-gray-200")) := by
  unfold stockCellColor getRowColor
  split_ifs <;> decide

/-- C10: the classification reads the stock and the expiry date of a product
only: two catalogs whose products agree pairwise on stock and expiry date
(whatever their ids, codes, descriptions, units, prices and intake dates) are
classified identically, row by row and in the same order, under the same
parser, configuration and current date. -/
theorem getRowColor_catalog_congr (parse : String → Option Int)
    (configuracion : Configuracion) (ahora : Int) (catalogo otro : List Producto)
    (h : List.Forall₂
      (fun p q => p.stock_actual = q.stock_actual ∧ p.fecha_vencimiento = q.fecha_vencimiento)
      catalogo otro) :
    catalogo.map (getRowColor parse configuracion ahora) =
      otro.map (getRowColor parse configuracion ahora) := by
  induction h with
  | nil => rfl
  | cons hpq _ ih =>
    rw [List.map_cons, List.map_cons, ih,
      getRowColor_congr parse configuracion ahora _ _ hpq.1 hpq.2]

/-- Two catalogs of two products that differ in every field but stock and
expiry date. -/
theorem getRowColor_catalog_congr_witness :
    [⟨"1", "A1", "Leche", "Unidades", 0, 5, none, none⟩,
      ⟨"3", "C1", "Yogur", "Unidades", 20, 2, none, some "2025-03-01"⟩].map
        (getRowColor isoParse ⟨10, 2⟩ 1738281600000) =
    [⟨"8", "Z9", "Agua", "Cajas", 0, 7, some "2024-12-01", none⟩,
      ⟨"9", "Y8", "Jugo", "Cajas", 20, 9, some "2024-11-01", some "2025-03-01"⟩].map
        (getRowColor isoParse ⟨10, 2⟩ 1738281600000) :=
  getRowColor_catalog_congr isoParse ⟨10, 2⟩ 1738281600000 _ _
    (List.Forall₂.cons ⟨rfl, rfl⟩ (List.Forall₂.cons ⟨rfl, rfl⟩ List.Forall₂.nil))

/-! ## Lemmas on the catalog filters -/

/-- The search `includesChars` decides the substring relation. -/
theorem includesChars_iff (texto buscado : List Char) :
    includesChars texto buscado = true ↔ buscado <:+: texto := by
  induction texto with
  | nil =>
    cases buscado <;> simp [includesChars]
  | cons c resto ih =>
    rw [includesChars, Bool.or_eq_true, ih, List.isPrefixOf_iff_prefix, List.infix_cons_iff]

theorem includes_iff (texto buscado : String) :
    includes texto buscado = true ↔ buscado.data <:+: texto.data :=
  includesChars_iff _ _

theorem includes_empty (texto : String) : includes texto "" = true := by
  rw [includes_iff]
  exact List.nil_infix

/-! ## The catalog filters: claims -/

/-- C11: with the empty search text the product filter returns the catalog
unchanged, the same products in the same order (the lower-casing of the empty
string is the empty string). -/
theorem productosFiltrados_empty (toLowerCase : String → String)
    (hvacio : toLowerCase "" = "") (productos : List Producto) :
    productosFiltrados toLowerCase productos "" = productos := by
  unfold productosFiltrados
  rw [List.filter_eq_self]
  intro p _
  rw [hvacio, includes_empty]
  rfl

/-- The scenario catalog filtered with the empty search text. -/
theorem productosFiltrados_empty_witness :
    productosFiltrados asciiLower
      [⟨"1", "A1", "Leche", "Unidades", 0, 5, none, none⟩,
        ⟨"2", "B1", "Arroz", "Cajas", 5, 3, none, none⟩] "" =
      [⟨"1", "A1", "Leche", "Unidades", 0, 5, none, none⟩,
        ⟨"2", "B1", "Arroz", "Cajas", 5, 3, none, none⟩] :=
  productosFiltrados_empty asciiLower (by decide) _

/-- C12: for every search text the product filter returns a subsequence of the
catalog: products of the catalog only, none more often than in the catalog, in
their original relative order. -/
theorem productosFiltrados_sublist (toLowerCase : String → String)
    (productos : List Producto) (searchTerm : String) :
    List.Sublist (productosFiltrados toLowerCase productos searchTerm) productos := by
  unfold productosFiltrados
  exact List.filter_sublist _

/-- C13, as stated, fails: the search text is not trimmed. The catalog holds a
product with code `A1`; the search text `" a1 "` keeps nothing, although its
trimmed form `a1` occurs in the lower-cased code and is kept. -/
theorem productosFiltrados_not_trimmed :
    productosFiltrados asciiLower
      [⟨"1", "A1", "Leche", "Unidades", 0, 5, none, none⟩] " a1 " = [] ∧
    productosFiltrados asciiLower
      [⟨"1", "A1", "Leche", "Unidades", 0, 5, none, none⟩] "a1" =
      [⟨"1", "A1", "Leche", "Unidades", 0, 5, none, none⟩] ∧
    includes (asciiLower "A1") (asciiLower "a1") = true := by
  decide

/-- C13, amended: the product filter keeps a product of the catalog if and only
if the lower-cased search text, as typed (not trimmed), is a substring of the
lower-cased code or of the lower-cased description. -/
theorem mem_productosFiltrados (toLowerCase : String → String) (productos : List Producto)
    (searchTerm : String) (p : Producto) :
    p ∈ productosFiltrados toLowerCase productos searchTerm ↔
      p ∈ productos ∧
        ((toLowerCase searchTerm).data <:+: (toLowerCase p.codigo).data ∨
          (toLowerCase searchTerm).data <:+: (toLowerCase p.descripcion).data) := by
  unfold productosFiltrados
  rw [List.mem_filter, Bool.or_eq_true, includes_iff, includes_iff]

/-- C15: the contact filter keeps a contact of the list if and only if the
lower-cased search text is a substring of its lower-cased name, or the contact
has a non-empty email and the lower-cased search text is a substring of the
lower-cased email; a contact whose email is missing or empty is kept exactly
when its name matches. -/
theorem mem_contactosFiltrados (toLowerCase : String → String) (contactos : List Contacto)
    (searchTerm : String) (c : Contacto) :
    (c ∈ contactosFiltrados toLowerCase contactos searchTerm ↔
      c ∈ contactos ∧
        ((toLowerCase searchTerm).data <:+: (toLowerCase c.nombre).data ∨
          ∃ correo, c.correo = some correo ∧ correo ≠ "" ∧
            (toLowerCase searchTerm).data <:+: (toLowerCase correo).data)) ∧
    ((c.correo = none ∨ c.correo = some "") →
      (c ∈ contactosFiltrados toLowerCase contactos searchTerm ↔
        c ∈ contactos ∧ (toLowerCase searchTerm).data <:+: (toLowerCase c.nombre).data)) := by
  have key : c ∈ contactosFiltrados toLowerCase contactos searchTerm ↔
      c ∈ contactos ∧
        ((toLowerCase searchTerm).data <:+: (toLowerCase c.nombre).data ∨
          ∃ correo, c.correo = some correo ∧ correo ≠ "" ∧
            (toLowerCase searchTerm).data <:+: (toLowerCase correo).data) := by
    unfold contactosFiltrados
    rw [List.mem_filter, Bool.or_eq_true, includes_iff]
    cases hc : c.correo with
    | none => simp
    | some correo => simp [includes_iff]
  refine ⟨key, ?_⟩
  intro h
  rw [key]
  rcases h with h | h <;> simp [h]

/-- A contact without email and a contact with an empty email, searched by a
text that occurs in the name of the first only. -/
theorem mem_contactosFiltrados_witness :
    ((⟨"1", "Ana", none, none, none, "Proveedor"⟩ : Contacto) ∈
        contactosFiltrados asciiLower
          [⟨"1", "Ana", none, none, none, "Proveedor"⟩,
            ⟨"2", "Luis", none, none, some "", "Tienda"⟩] "AN" ↔
      (⟨"1", "Ana", none, none, none, "Proveedor"⟩ : Contacto) ∈
          [⟨"1", "Ana", none, none, none, "Proveedor"⟩,
            ⟨"2", "Luis", none, none, some "", "Tienda"⟩] ∧
        (asciiLower "AN").data <:+: (asciiLower "Ana").data) :=
  (mem_contactosFiltrados asciiLower
    [⟨"1", "Ana", none, none, none, "Proveedor"⟩,
      ⟨"2", "Luis", none, none, some "", "Tienda"⟩] "AN"
    ⟨"1", "Ana", none, none, none, "Proveedor"⟩).2 (Or.inl rfl)

/-- Two texts that differ only in letter case, both lower-cased character by
character, have the same lower-casing. -/
theorem caseVariant_lower (toLowerCase : String → String) (lowerChar : Char → Char)
    (a b : String) (h : caseVariant toLowerCase lowerChar a b) :
    toLowerCase a = toLowerCase b := by
  obtain ⟨ha, hb, hab⟩ := h
  rw [ha, hb, hab]

/-- Two texts that differ only in letter case are both empty or both not. -/
theorem sameUpToCase_ne_empty (lowerChar : Char → Char) (a b : String)
    (h : sameUpToCase lowerChar a b) : (a != "") = (b != "") := by
  have hlen : a.data.length = b.data.length := by
    have := congrArg List.length h
    simpa using this
  have ha : ∀ s : String, (s != "") = !decide (s.data.length = 0) := by
    intro s
    cases s with
    | mk d =>
      cases d with
      | nil => rfl
      | cons c cs =>
        have : (String.mk (c :: cs)) ≠ "" := by
          intro hh
          have := congrArg String.data hh
          simp at this
        simp [bne, this]
  rw [ha a, ha b, hlen]

/-- The product filter keeps the entries at the same positions of two lists
whose products have, pairwise, codes and descriptions with the same
lower-casing. -/
theorem productosFiltrados_rel (toLowerCase : String → String) (q : String)
    (R : Producto → Producto → Prop)
    (hR : ∀ p r, R p r → toLowerCase p.codigo = toLowerCase r.codigo ∧
      toLowerCase p.descripcion = toLowerCase r.descripcion)
    (productos otros : List Producto) (hp : List.Forall₂ R productos otros) :
    List.Forall₂ R (productosFiltrados toLowerCase productos q)
      (productosFiltrados toLowerCase otros q) := by
  unfold productosFiltrados
  induction hp with
  | nil => exact List.Forall₂.nil
  | @cons p r ps rs hpr _ ih =>
    rw [List.filter_cons, List.filter_cons, (hR p r hpr).1, (hR p r hpr).2]
    split
    · exact List.Forall₂.cons hpr ih
    · exact ih

/-- The contact filter keeps the entries at the same positions of two lists
whose contacts have, pairwise, names with the same lower-casing and emails
that are both absent, or both present, both empty or both not, with the same
lower-casing. -/
theorem contactosFiltrados_rel (toLowerCase : String → String) (q : String)
    (R : Contacto → Contacto → Prop)
    (hR : ∀ c d, R c d → toLowerCase c.nombre = toLowerCase d.nombre ∧
      c.correo.map toLowerCase = d.correo.map toLowerCase ∧
      truthy c.correo = truthy d.correo)
    (contactos otros : List Contacto) (hc : List.Forall₂ R contactos otros) :
    List.Forall₂ R (contactosFiltrados toLowerCase contactos q)
      (contactosFiltrados toLowerCase otros q) := by
  unfold contactosFiltrados
  induction hc with
  | nil => exact List.Forall₂.nil
  | @cons c d cs ds hcd _ ih =>
    obtain ⟨hn, hmap, htr⟩ := hR c d hcd
    rw [List.filter_cons, List.filter_cons, hn]
    cases hx : c.correo with
    | none =>
      cases hy : d.correo with
      | none =>
        simp only []
        split
        · exact List.Forall₂.cons hcd ih
        · exact ih
      | some y => rw [hx, hy] at hmap; simp at hmap
    | some x =>
      cases hy : d.correo with
      | none => rw [hx, hy] at hmap; simp at hmap
      | some y =>
        rw [hx, hy] at hmap htr
        simp only [Option.map_some', Option.some.injEq] at hmap
        simp only [truthy] at htr
        simp only [hmap, htr]
        split
        · exact List.Forall₂.cons hcd ih
        · exact ih

/-- C14, as stated, fails: lower-casing depends on the position of a letter.
The search texts `ΑΣ` and `ασ` differ only in letter case, and so do the codes
`ΑΣ` and `ασ`. A product with code `ΑΣΠΙΡΙΝΗ` is kept for `ασ` and dropped for
`ΑΣ` (which lower-cases to `ας`, with a final sigma); for the search text `ασ`
a product with code `ασ` is kept and a product with code `ΑΣ` is dropped. -/
theorem productosFiltrados_case_sensitive :
    sameUpToCase greekLowerChar "ΑΣ" "ασ" ∧
    greekLower "ΑΣ" = "ας" ∧ greekLower "ασ" = "ασ" ∧
    greekLower "ΑΣΠΙΡΙΝΗ" = "ασπιρινη" ∧
    productosFiltrados greekLower
      [⟨"1", "ΑΣΠΙΡΙΝΗ", "Aspirina", "Unidades", 20, 5, none, none⟩] "ασ" =
      [⟨"1", "ΑΣΠΙΡΙΝΗ", "Aspirina", "Unidades", 20, 5, none, none⟩] ∧
    productosFiltrados greekLower
      [⟨"1", "ΑΣΠΙΡΙΝΗ", "Aspirina", "Unidades", 20, 5, none, none⟩] "ΑΣ" = [] ∧
    productosFiltrados greekLower
      [⟨"2", "ασ", "Leche", "Unidades", 20, 5, none, none⟩] "ασ" =
      [⟨"2", "ασ", "Leche", "Unidades", 20, 5, none, none⟩] ∧
    productosFiltrados greekLower
      [⟨"2", "ΑΣ", "Leche", "Unidades", 20, 5, none, none⟩] "ασ" = [] := by
  decide

/-- C14, amended: the filters are case-insensitive on texts that `toLowerCase`
lower-cases character by character. Two such search texts that differ only in
letter case give the same product list and the same contact list; and
changing the letter case of the codes and descriptions of the products, or of
the names and emails of the contacts, with such texts before and after, keeps
the entries at the same positions. -/
theorem filtrados_case_insensitive (toLowerCase : String → String) (lowerChar : Char → Char)
    (q1 q2 : String) (hq : caseVariant toLowerCase lowerChar q1 q2)
    (productos otros : List Producto)
    (hp : List.Forall₂
      (fun p r => caseVariant toLowerCase lowerChar p.codigo r.codigo ∧
        caseVariant toLowerCase lowerChar p.descripcion r.descripcion) productos otros)
    (contactos otrosContactos : List Contacto)
    (hc : List.Forall₂
      (fun c d => caseVariant toLowerCase lowerChar c.nombre d.nombre ∧
        caseVariantOption toLowerCase lowerChar c.correo d.correo)
      contactos otrosContactos) :
    productosFiltrados toLowerCase productos q1 = productosFiltrados toLowerCase productos q2 ∧
    contactosFiltrados toLowerCase contactos q1 =
      contactosFiltrados toLowerCase contactos q2 ∧
    List.Forall₂
      (fun p r => caseVariant toLowerCase lowerChar p.codigo r.codigo ∧
        caseVariant toLowerCase lowerChar p.descripcion r.descripcion)
      (productosFiltrados toLowerCase productos q1)
      (productosFiltrados toLowerCase otros q1) ∧
    List.Forall₂
      (fun c d => caseVariant toLowerCase lowerChar c.nombre d.nombre ∧
        caseVariantOption toLowerCase lowerChar c.correo d.correo)
      (contactosFiltrados toLowerCase contactos q1)
      (contactosFiltrados toLowerCase otrosContactos q1) := by
  have hq2 := caseVariant_lower toLowerCase lowerChar q1 q2 hq
  refine ⟨?_, ?_, ?_, ?_⟩
  · unfold productosFiltrados
    rw [hq2]
  · unfold contactosFiltrados
    rw [hq2]
  · exact productosFiltrados_rel toLowerCase q1 _
      (fun p r h => ⟨caseVariant_lower toLowerCase lowerChar _ _ h.1,
        caseVariant_lower toLowerCase lowerChar _ _ h.2⟩) productos otros hp
  · refine contactosFiltrados_rel toLowerCase q1 _ ?_ contactos otrosContactos hc
    intro c d h
    refine ⟨caseVariant_lower toLowerCase lowerChar _ _ h.1, ?_⟩
    have h2 := h.2
    cases hx : c.correo with
    | none =>
      cases hy : d.correo with
      | none => exact ⟨rfl, rfl⟩
      | some y => rw [hx, hy] at h2; exact h2.elim
    | some x =>
      cases hy : d.correo with
      | none => rw [hx, hy] at h2; exact h2.elim
      | some y =>
        rw [hx, hy] at h2
        have h3 : caseVariant toLowerCase lowerChar x y := h2
        refine ⟨?_, ?_⟩
        · simp only [Option.map_some', caseVariant_lower toLowerCase lowerChar x y h3]
        · simp only [truthy]
          exact sameUpToCase_ne_empty lowerChar x y h3.2.2

/-- The search texts `a` and `A`, a product whose code is written `A1` or
`a1`, and a contact whose name and email are written in either case, with the
lower-casing of ASCII text. -/
theorem filtrados_case_insensitive_witness :
    productosFiltrados asciiLower [⟨"1", "A1", "Leche", "Unidades", 0, 5, none, none⟩] "a" =
      productosFiltrados asciiLower
        [⟨"1", "A1", "Leche", "Unidades", 0, 5, none, none⟩] "A" ∧
    contactosFiltrados asciiLower [⟨"1", "Ana", none, none, some "ANA@X.ORG", "Tienda"⟩] "a" =
      contactosFiltrados asciiLower
        [⟨"1", "Ana", none, none, some "ANA@X.ORG", "Tienda"⟩] "A" ∧
    List.Forall₂
      (fun p r => caseVariant asciiLower Char.toLower p.codigo r.codigo ∧
        caseVariant asciiLower Char.toLower p.descripcion r.descripcion)
      (productosFiltrados asciiLower
        [⟨"1", "A1", "Leche", "Unidades", 0, 5, none, none⟩] "a")
      (productosFiltrados asciiLower
        [⟨"1", "a1", "LECHE", "Unidades", 0, 5, none, none⟩] "a") ∧
    List.Forall₂
      (fun c d => caseVariant asciiLower Char.toLower c.nombre d.nombre ∧
        caseVariantOption asciiLower Char.toLower c.correo d.correo)
      (contactosFiltrados asciiLower
        [⟨"1", "Ana", none, none, some "ANA@X.ORG", "Tienda"⟩] "a")
      (contactosFiltrados asciiLower
        [⟨"1", "ANA", none, none, some "ana@x.org", "Tienda"⟩] "a") :=
  filtrados_case_insensitive asciiLower Char.toLower "a" "A" ⟨rfl, rfl, by decide⟩
    [⟨"1", "A1", "Leche", "Unidades", 0, 5, none, none⟩]
    [⟨"1", "a1", "LECHE", "Unidades", 0, 5, none, none⟩]
    (List.Forall₂.cons ⟨⟨rfl, rfl, by decide⟩, ⟨rfl, rfl, by decide⟩⟩ List.Forall₂.nil)
    [⟨"1", "Ana", none, none, some "ANA@X.ORG", "Tienda"⟩]
    [⟨"1", "ANA", none, none, some "ana@x.org", "Tienda"⟩]
    (List.Forall₂.cons ⟨⟨rfl, rfl, by decide⟩, ⟨rfl, rfl, by decide⟩⟩ List.Forall₂.nil)

/-! ## Contract violations: claims -/

/-- C16, as stated, fails: the classifier signals nothing. A stock of -1 is
classified LowStock, a malformed expiry text is classified Normal, and a
horizon of 0 or -3 months is used as it is (a product expiring today is
ExpiringSoon with horizon 0 and Normal with horizon -3). -/
theorem getRowColor_no_invalid_input :
    getRowColor isoParse ⟨10, 2⟩ 1738281600000
      ⟨"1", "A1", "Leche", "Unidades", -1, 5, none, none⟩ =
        "bg-yellow-100 border-yellow-300" ∧
    isoParse "31/12/2025" = none ∧
    getRowColor isoParse ⟨10, 2⟩ 1738281600000
      ⟨"2", "B1", "Arroz", "Cajas", 20, 3, none, some "31/12/2025"⟩ =
        "bg-white border-gray-200" ∧
    getRowColor isoParse ⟨10, 0⟩ 1738281600000
      ⟨"3", "C1", "Yogur", "Unidades", 20, 2, none, some "2025-01-31"⟩ =
        "bg-orange-100 border-orange-300" ∧
    getRowColor isoParse ⟨10, -3⟩ 1738281600000
      ⟨"3", "C1", "Yogur", "Unidades", 20, 2, none, some "2025-01-31"⟩ =
        "bg-white border-gray-200" := by
  decide

/-- C16, amended: on every input, also one that violates the contract, the
classifier returns one of the four category results and signals nothing: a
negative stock under a non-negative limit is classified LowStock, and with
enough stock an expiry text that is not a date is treated as no expiry date
(Normal), whatever the horizon is. -/
theorem getRowColor_contract_violation (parse : String → Option Int)
    (configuracion : Configuracion) (ahora : Int) (producto : Producto) :
    (getRowColor parse configuracion ahora producto = "bg-red-100 border-red-300" ∨
      getRowColor parse configuracion ahora producto = "bg-yellow-100 border-yellow-300" ∨
      getRowColor parse configuracion ahora producto = "bg-orange-100 border-orange-300" ∨
      getRowColor parse configuracion ahora producto = "bg-white border-gray-200") ∧
    (producto.stock_actual < 0 → 0 ≤ configuracion.stock_bajo_limite →
      getRowColor parse configuracion ahora producto = "bg-yellow-100 border-yellow-300") ∧
    (∀ texto, producto.fecha_vencimiento = some texto → parse texto = none →
      0 < producto.stock_actual →
      configuracion.stock_bajo_limite ≤ producto.stock_actual →
      getRowColor parse configuracion ahora producto = "bg-white border-gray-200") := by
  refine ⟨?_, ?_, ?_⟩
  · unfold getRowColor
    split_ifs <;> simp
  · intro h0 h1
    unfold getRowColor
    rw [if_neg (by omega), if_pos (by omega)]
  · intro texto hf hp h0 h1
    unfold getRowColor
    rw [if_neg (by omega), if_neg (by omega), hf]
    simp [hp, dateLe]

/-- A stock of -1 under the limit 10, and a well-stocked product whose expiry
text is `31/12/2025`. -/
theorem getRowColor_contract_violation_witness :
    getRowColor isoParse ⟨10, 2⟩ 1738281600000
      ⟨"1", "A1", "Leche", "Unidades", -1, 5, none, none⟩ =
        "bg-yellow-100 border-yellow-300" ∧
    getRowColor isoParse ⟨10, 2⟩ 1738281600000
      ⟨"2", "B1", "Arroz", "Cajas", 20, 3, none, some "31/12/2025"⟩ =
        "bg-white border-gray-200" :=
  ⟨(getRowColor_contract_violation isoParse ⟨10, 2⟩ 1738281600000
      ⟨"1", "A1", "Leche", "Unidades", -1, 5, none, none⟩).2.1 (by decide) (by decide),
    (getRowColor_contract_violation isoParse ⟨10, 2⟩ 1738281600000
      ⟨"2", "B1", "Arroz", "Cajas", 20, 3, none, some "31/12/2025"⟩).2.2 "31/12/2025" rfl
      (by decide) (by decide) (by decide)⟩

/-! ## Lemmas on the alert list -/

theorem codigoLe_total (a b : List Char) : codigoLe a b = true ∨ codigoLe b a = true := by
  induction a generalizing b with
  | nil => left; rfl
  | cons x xs ih =>
    cases b with
    | nil => right; rfl
    | cons y ys =>
      simp only [codigoLe, Bool.or_eq_true, Bool.and_eq_true, decide_eq_true_eq, beq_iff_eq]
      rcases Nat.lt_trichotomy x.toNat y.toNat with h | h | h
      · left; left; exact h
      · rcases ih ys with h' | h'
        · left; right; exact ⟨h, h'⟩
        · right; right; exact ⟨h.symm, h'⟩
      · right; left; exact h

theorem codigoLe_trans {a b c : List Char} (hab : codigoLe a b = true)
    (hbc : codigoLe b c = true) : codigoLe a c = true := by
  induction a generalizing b c with
  | nil => rfl
  | cons x xs ih =>
    cases b with
    | nil => simp [codigoLe] at hab
    | cons y ys =>
      cases c with
      | nil => simp [codigoLe] at hbc
      | cons z zs =>
        simp only [codigoLe, Bool.or_eq_true, Bool.and_eq_true, decide_eq_true_eq,
          beq_iff_eq] at hab hbc ⊢
        rcases hab with h1 | ⟨h1, h1'⟩ <;> rcases hbc with h2 | ⟨h2, h2'⟩
        · left; omega
        · left; omega
        · left; omega
        · right; exact ⟨by omega, ih h1' h2'⟩

theorem alertaLe_total (a b : Alerta) : alertaLe a b ∨ alertaLe b a := by
  unfold alertaLe
  rcases Nat.lt_trichotomy (severidad a.tipo_alerta) (severidad b.tipo_alerta) with h | h | h
  · left; left; exact h
  · rcases codigoLe_total a.codigo.data b.codigo.data with h' | h'
    · left; right; exact ⟨h, h'⟩
    · right; right; exact ⟨h.symm, h'⟩
  · right; left; exact h

theorem alertaLe_trans {a b c : Alerta} (hab : alertaLe a b) (hbc : alertaLe b c) :
    alertaLe a c := by
  unfold alertaLe at *
  rcases hab with h1 | ⟨h1, h1'⟩ <;> rcases hbc with h2 | ⟨h2, h2'⟩
  · left; omega
  · left; omega
  · left; omega
  · right; exact ⟨by omega, codigoLe_trans h1' h2'⟩

/-- The alert list is ordered. -/
theorem buildAlerts_sorted (parse : String → Option Int) (configuracion : Configuracion)
    (ahora : Int) (catalogo : List Producto) :
    List.Pairwise alertaLe (buildAlerts parse configuracion ahora catalogo) :=
  @List.sorted_insertionSort _ alertaLe _ ⟨alertaLe_total⟩ ⟨fun _ _ _ => alertaLe_trans⟩ _

/-- The alert list holds the records of the flagged products, each once. -/
theorem buildAlerts_perm (parse : String → Option Int) (configuracion : Configuracion)
    (ahora : Int) (catalogo : List Producto) :
    List.Perm (buildAlerts parse configuracion ahora catalogo)
      (catalogo.filterMap (alertaDe parse configuracion ahora)) :=
  List.perm_insertionSort _ _

theorem filasAlertas_codigo (alertas : List Alerta) :
    (filasAlertas alertas).map (fun fila => fila.codigo) =
      alertas.map (fun alerta => alerta.codigo) := by
  unfold filasAlertas
  rw [List.map_map]
  rfl

/-- The record of a product, by the class the classifier gives it. -/
theorem alertaDe_eq (parse : String → Option Int) (configuracion : Configuracion)
    (ahora : Int) (producto : Producto) :
    (getRowColor parse configuracion ahora producto = "bg-white border-gray-200" ∧
      alertaDe parse configuracion ahora producto = none) ∨
    (getRowColor parse configuracion ahora producto = "bg-red-100 border-red-300" ∧
      alertaDe parse configuracion ahora producto =
        some ⟨"stock_cero", producto.codigo, producto.descripcion, producto.stock_actual,
          producto.fecha_vencimiento, none⟩) ∨
    (getRowColor parse configuracion ahora producto = "bg-yellow-100 border-yellow-300" ∧
      alertaDe parse configuracion ahora producto =
        some ⟨"stock_bajo", producto.codigo, producto.descripcion, producto.stock_actual,
          producto.fecha_vencimiento, none⟩) ∨
    (getRowColor parse configuracion ahora producto = "bg-orange-100 border-orange-300" ∧
      alertaDe parse configuracion ahora producto =
        some ⟨"proximo_vencer", producto.codigo, producto.descripcion, producto.stock_actual,
          producto.fecha_vencimiento,
          diasParaVencer parse ahora producto.fecha_vencimiento⟩) := by
  have h := getRowColor_cases parse configuracion ahora producto
  unfold alertaDe
  rcases h with h | h | h | h <;> rw [h]
  · right; left; exact ⟨rfl, by simp [tipoAlertaDe]⟩
  · right; right; left; exact ⟨rfl, by simp [tipoAlertaDe]⟩
  · right; right; right; exact ⟨rfl, by simp [tipoAlertaDe]⟩
  · left; exact ⟨rfl, by simp [tipoAlertaDe]⟩

theorem Day_mono {a b : Int} (h : a ≤ b) : Day a ≤ Day b := by
  unfold Day msPerDay
  omega

theorem toString_natCast (n : Nat) : toString (n : Int) = toString n := rfl

/-- The days figure of a record: absent, or a natural number. -/
theorem diasParaVencer_nonneg (parse : String → Option Int) (ahora : Int)
    (fecha : Option String) :
    diasParaVencer parse ahora fecha = none ∨
      ∃ n : Nat, diasParaVencer parse ahora fecha = some (n : Int) := by
  unfold diasParaVencer
  cases fecha.bind parse with
  | none => left; rfl
  | some vence =>
    right
    refine ⟨(max 0 (Day vence - Day ahora)).toNat, ?_⟩
    rw [Int.toNat_of_nonneg (le_max_left _ _)]
    rfl

theorem mem_buildAlerts {parse : String → Option Int} {configuracion : Configuracion}
    {ahora : Int} {catalogo : List Producto} {a : Alerta} :
    a ∈ buildAlerts parse configuracion ahora catalogo ↔
      ∃ p ∈ catalogo, alertaDe parse configuracion ahora p = some a := by
  rw [(buildAlerts_perm parse configuracion ahora catalogo).mem_iff, List.mem_filterMap]

/-! ## The alerts panel: claims -/

/-- C17: the alert list is ordered by severity (`stock_cero` before
`stock_bajo` before `proximo_vencer`) and, within one category, by product code
ascending; the alerts table shows one row per record in that order; and the
catalog A1 (stock 0), B1 (stock 5), C1 (stock 20, expiring in one month), D1
(stock 0, expiring the next day) with limit 10 and horizon 2 is shown as A1,
D1, B1, C1. -/
theorem buildAlerts_order (parse : String → Option Int) (configuracion : Configuracion)
    (ahora : Int) (catalogo : List Producto) :
    List.Pairwise
      (fun a b => severidad a.tipo_alerta < severidad b.tipo_alerta ∨
        (severidad a.tipo_alerta = severidad b.tipo_alerta ∧
          codigoLe a.codigo.data b.codigo.data = true))
      (buildAlerts parse configuracion ahora catalogo) ∧
    (severidad "stock_cero" < severidad "stock_bajo" ∧
      severidad "stock_bajo" < severidad "proximo_vencer") ∧
    (filasAlertas (buildAlerts parse configuracion ahora catalogo)).map
        (fun fila => fila.codigo) =
      (buildAlerts parse configuracion ahora catalogo).map (fun alerta => alerta.codigo) ∧
    (filasAlertas (buildAlerts isoParse ⟨10, 2⟩ 1736899200000
        [⟨"1", "A1", "Leche", "Unidades", 0, 5, none, none⟩,
          ⟨"2", "B1", "Arroz", "Cajas", 5, 3, none, none⟩,
          ⟨"3", "C1", "Yogur", "Unidades", 20, 2, none, some "2025-02-15"⟩,
          ⟨"4", "D1", "Queso", "Unidades", 0, 9, none, some "2025-01-16"⟩])).map
        (fun fila => (fila.codigo, fila.tipo)) =
      [("A1", "🚨 Agotado"), ("D1", "🚨 Agotado"), ("B1", "⚠️ Bajo"), ("C1", "⏰ Vence")] := by
  refine ⟨buildAlerts_sorted parse configuracion ahora catalogo, by decide,
    filasAlertas_codigo _, by decide⟩

/-- C18: the alert list holds one record for exactly the products that are not
classified Normal: its records are, up to order, the records of the products of
the catalog, one per flagged product and none for a product classified Normal;
the record of a product classified Depleted, LowStock or ExpiringSoon carries
the category `stock_cero`, `stock_bajo` or `proximo_vencer` and the code of the
product. -/
theorem buildAlerts_records (parse : String → Option Int) (configuracion : Configuracion)
    (ahora : Int) (catalogo : List Producto) :
    List.Perm (buildAlerts parse configuracion ahora catalogo)
      (catalogo.filterMap (alertaDe parse configuracion ahora)) ∧
    (buildAlerts parse configuracion ahora catalogo).length =
      (catalogo.filter (fun p =>
        getRowColor parse configuracion ahora p != "bg-white border-gray-200")).length ∧
    ∀ p : Producto,
      (getRowColor parse configuracion ahora p = "bg-white border-gray-200" →
        alertaDe parse configuracion ahora p = none) ∧
      (getRowColor parse configuracion ahora p = "bg-red-100 border-red-300" →
        ∃ a, alertaDe parse configuracion ahora p = some a ∧
          a.tipo_alerta = "stock_cero" ∧ a.codigo = p.codigo) ∧
      (getRowColor parse configuracion ahora p = "bg-yellow-100 border-yellow-300" →
        ∃ a, alertaDe parse configuracion ahora p = some a ∧
          a.tipo_alerta = "stock_bajo" ∧ a.codigo = p.codigo) ∧
      (getRowColor parse configuracion ahora p = "bg-orange-100 border-orange-300" →
        ∃ a, alertaDe parse configuracion ahora p = some a ∧
          a.tipo_alerta = "proximo_vencer" ∧ a.codigo = p.codigo) := by
  refine ⟨buildAlerts_perm parse configuracion ahora catalogo, ?_, ?_⟩
  · rw [(buildAlerts_perm parse configuracion ahora catalogo).length_eq]
    induction catalogo with
    | nil => rfl
    | cons p ps ih =>
      rcases alertaDe_eq parse configuracion ahora p with h | h | h | h <;>
        simp [List.filterMap_cons, List.filter_cons, h.1, h.2, ih]
  · intro p
    rcases alertaDe_eq parse configuracion ahora p with h | h | h | h <;>
      simp [h.1, h.2]

/-- C19: each category card shows the number of records of its category, and
when every record carries one of the three categories the three figures add up
to the length of the alert list, the count shown on the alerts tab. -/
theorem contarAlertas_total (alertas : List Alerta) :
    (contarAlertas alertas "stock_cero" =
        alertas.countP (fun a => a.tipo_alerta == "stock_cero") ∧
      contarAlertas alertas "stock_bajo" =
        alertas.countP (fun a => a.tipo_alerta == "stock_bajo") ∧
      contarAlertas alertas "proximo_vencer" =
        alertas.countP (fun a => a.tipo_alerta == "proximo_vencer")) ∧
    ((∀ a ∈ alertas, a.tipo_alerta = "stock_cero" ∨ a.tipo_alerta = "stock_bajo" ∨
        a.tipo_alerta = "proximo_vencer") →
      contarAlertas alertas "stock_cero" + contarAlertas alertas "stock_bajo" +
        contarAlertas alertas "proximo_vencer" = totalAlertas alertas) := by
  refine ⟨⟨?_, ?_, ?_⟩, ?_⟩
  · exact (List.countP_eq_length_filter _ _).symm
  · exact (List.countP_eq_length_filter _ _).symm
  · exact (List.countP_eq_length_filter _ _).symm
  · unfold contarAlertas totalAlertas
    induction alertas with
    | nil => intro _; rfl
    | cons a as ih =>
      intro h
      have ih' := ih (fun b hb => h b (List.mem_cons_of_mem a hb))
      rcases h a (List.mem_cons_self a as) with ha | ha | ha <;>
        simp only [List.filter_cons, ha] <;> simp <;> omega

/-- Two exhausted products, one low on stock and one close to expiry. -/
theorem contarAlertas_total_witness :
    contarAlertas
        [⟨"stock_cero", "A1", "Leche", 0, none, none⟩,
          ⟨"stock_cero", "D1", "Queso", 0, some "2025-01-16", none⟩,
          ⟨"stock_bajo", "B1", "Arroz", 5, none, none⟩,
          ⟨"proximo_vencer", "C1", "Yogur", 20, some "2025-02-15", some 31⟩] "stock_cero" +
      contarAlertas
        [⟨"stock_cero", "A1", "Leche", 0, none, none⟩,
          ⟨"stock_cero", "D1", "Queso", 0, some "2025-01-16", none⟩,
          ⟨"stock_bajo", "B1", "Arroz", 5, none, none⟩,
          ⟨"proximo_vencer", "C1", "Yogur", 20, some "2025-02-15", some 31⟩] "stock_bajo" +
      contarAlertas
        [⟨"stock_cero", "A1", "Leche", 0, none, none⟩,
          ⟨"stock_cero", "D1", "Queso", 0, some "2025-01-16", none⟩,
          ⟨"stock_bajo", "B1", "Arroz", 5, none, none⟩,
          ⟨"proximo_vencer", "C1", "Yogur", 20, some "2025-02-15", some 31⟩]
        "proximo_vencer" =
      totalAlertas
        [⟨"stock_cero", "A1", "Leche", 0, none, none⟩,
          ⟨"stock_cero", "D1", "Queso", 0, some "2025-01-16", none⟩,
          ⟨"stock_bajo", "B1", "Arroz", 5, none, none⟩,
          ⟨"proximo_vencer", "C1", "Yogur", 20, some "2025-02-15", some 31⟩] :=
  (contarAlertas_total _).2 (by decide)

/-- C20: every record of the alert list shows either no days figure (a dash)
or a natural number of days, never a negative count; and an ExpiringSoon record
whose expiry date has already passed shows 0 days. -/
theorem diasCell_nonneg (parse : String → Option Int) (configuracion : Configuracion)
    (ahora : Int) (catalogo : List Producto) (a : Alerta)
    (ha : a ∈ buildAlerts parse configuracion ahora catalogo) :
    ((a.dias_para_vencer = none ∧ diasCell a = "-") ∨
      ∃ n : Nat, a.dias_para_vencer = some (n : Int) ∧
        diasCell a = toString n ++ " días") ∧
    (∀ vence : Int, a.tipo_alerta = "proximo_vencer" →
      a.fecha_vencimiento.bind parse = some vence → vence < ahora →
      a.dias_para_vencer = some 0 ∧ diasCell a = "0 días") := by
  obtain ⟨p, _, hp⟩ := mem_buildAlerts.mp ha
  rcases alertaDe_eq parse configuracion ahora p with h | h | h | h <;>
    rw [h.2] at hp
  · exact absurd hp (by simp)
  · cases Option.some.inj hp
    exact ⟨Or.inl ⟨rfl, rfl⟩, fun _ h' => absurd h' (by simp)⟩
  · cases Option.some.inj hp
    exact ⟨Or.inl ⟨rfl, rfl⟩, fun _ h' => absurd h' (by simp)⟩
  · cases Option.some.inj hp
    constructor
    · rcases diasParaVencer_nonneg parse ahora p.fecha_vencimiento with h' | ⟨n, h'⟩
      · left
        exact ⟨h', by simp only [diasCell, h']⟩
      · right
        exact ⟨n, h', by simp only [diasCell, h', toString_natCast]⟩
    · intro vence _ hv hlt
      have hd : diasParaVencer parse ahora p.fecha_vencimiento = some 0 := by
        have hle := Day_mono (le_of_lt hlt)
        simp only [] at hv
        unfold diasParaVencer
        rw [hv]
        simp only [Option.map_some', Option.some.injEq]
        omega
      exact ⟨hd, by simp only [diasCell, hd]; rfl⟩

/-- The record of a product with stock 20 that expired on 2020-01-01, listed on
2025-01-31 with limit 10 and horizon 2: the days cell reads `0 días`. -/
theorem diasCell_nonneg_witness :
    diasCell ⟨"proximo_vencer", "G1", "Pan", 20, some "2020-01-01", some 0⟩ = "0 días" :=
  ((diasCell_nonneg isoParse ⟨10, 2⟩ 1738281600000
    [⟨"7", "G1", "Pan", "Unidades", 20, 1, none, some "2020-01-01"⟩]
    ⟨"proximo_vencer", "G1", "Pan", 20, some "2020-01-01", some 0⟩ (by decide)).2
      1577836800000 rfl (by decide) (by decide)).2

/-! ## Lemmas on `parseInt` and `parseFloat` -/

theorem parseInt_empty : parseInt "" = none := by decide

theorem parseFloat_empty : parseFloat "" = none := by
  have h : decimalParts (stripSign ("".data.dropWhile isWhiteSpace)) = none := by decide
  simp only [parseFloat, h]

/-- A text that does not start with a minus sign is not read as a negative
integer. -/
theorem parseInt_nonneg {texto : String} {n : Int} (hs : startsWithMinus texto = false)
    (h : parseInt texto = some n) : 0 ≤ n := by
  unfold parseInt at h
  simp only [hs, Bool.false_eq_true, if_false] at h
  split_ifs at h
  cases Option.some.inj h
  exact Int.ofNat_nonneg _

/-- A text that does not start with a minus sign is not read as a negative
number. -/
theorem parseFloat_nonneg {texto : String} {x : Rat} (hs : startsWithMinus texto = false)
    (h : parseFloat texto = some x) : 0 ≤ x := by
  unfold parseFloat at h
  rw [hs] at h
  cases hd : decimalParts (stripSign (texto.data.dropWhile isWhiteSpace)) with
  | none => rw [hd] at h; simp at h
  | some mke =>
    obtain ⟨m, k, e⟩ := mke
    rw [hd] at h
    simp only [Bool.false_eq_true, if_false, Option.some.injEq] at h
    rw [← h]
    positivity

theorem orDefault_nonneg {α : Type} [Zero α] [DecidableEq α] [LE α] (value : Option α)
    (porDefecto : α) (hd : 0 ≤ porDefecto) (h : ∀ x, value = some x → 0 ≤ x) :
    0 ≤ orDefault value porDefecto := by
  unfold orDefault
  cases value with
  | none => exact hd
  | some x =>
    simp only []
    split_ifs
    · exact hd
    · exact h x rfl

/-! ## The settings tab: claims -/

/-- C21: the initial configuration has low-stock limit 10 and expiry horizon 2
months; under it a product with stock 9 is classified LowStock and a product
with stock 10 and no expiry date is classified Normal. -/
theorem configuracionInicial_classification (parse : String → Option Int) (ahora : Int)
    (producto : Producto) :
    configuracionInicial.stock_bajo_limite = 10 ∧
    configuracionInicial.vencimiento_alerta_meses = 2 ∧
    (producto.stock_actual = 9 →
      getRowColor parse configuracionInicial ahora producto =
        "bg-yellow-100 border-yellow-300") ∧
    (producto.stock_actual = 10 →
      (producto.fecha_vencimiento = none ∨ producto.fecha_vencimiento = some "") →
      getRowColor parse configuracionInicial ahora producto = "bg-white border-gray-200") := by
  refine ⟨rfl, rfl, ?_, ?_⟩
  · intro h
    unfold getRowColor
    rw [if_neg (by omega), if_pos (by rw [h]; decide)]
  · intro h hf
    exact getRowColor_no_expiry parse configuracionInicial ahora producto (by omega)
      (by rw [h]; decide) hf

/-- A product with stock 9 and a product with stock 10 and no expiry date, under
the initial configuration. -/
theorem configuracionInicial_classification_witness :
    getRowColor isoParse configuracionInicial 1738281600000
      ⟨"1", "A1", "Leche", "Unidades", 9, 5, none, none⟩ =
        "bg-yellow-100 border-yellow-300" ∧
    getRowColor isoParse configuracionInicial 1738281600000
      ⟨"2", "B1", "Arroz", "Cajas", 10, 3, none, none⟩ = "bg-white border-gray-200" :=
  ⟨(configuracionInicial_classification isoParse 1738281600000
      ⟨"1", "A1", "Leche", "Unidades", 9, 5, none, none⟩).2.2.1 rfl,
    (configuracionInicial_classification isoParse 1738281600000
      ⟨"2", "B1", "Arroz", "Cajas", 10, 3, none, none⟩).2.2.2 rfl (Or.inl rfl)⟩

/-- The horizon passed on is at least 1 for every text that does not start with
a minus sign. -/
theorem onChangeVencimientoAlertaMeses_pos {value : String}
    (hs : startsWithMinus value = false) : 1 ≤ onChangeVencimientoAlertaMeses value := by
  unfold onChangeVencimientoAlertaMeses orDefault
  cases h : parseInt value with
  | none => decide
  | some n =>
    have := parseInt_nonneg hs h
    simp only []
    split_ifs <;> omega

/-- The limit passed on is not negative for every text that does not start with
a minus sign. -/
theorem onChangeStockBajoLimite_nonneg {value : String}
    (hs : startsWithMinus value = false) : 0 ≤ onChangeStockBajoLimite value :=
  orDefault_nonneg _ _ (le_refl _) (fun _ h => parseInt_nonneg hs h)

/-- C22, the code at the failing input: for the text `-5` in the expiry-alert
field the change handler passes the horizon -5, which is not a positive
integer. -/
theorem onChangeVencimientoAlertaMeses_negative :
    onChangeVencimientoAlertaMeses "-5" = -5 ∧ ¬ (1 ≤ onChangeVencimientoAlertaMeses "-5") := by
  decide

/-- C23, the code at the failing input: for the text `-5` in the low-stock
field the change handler passes the limit -5, which is negative. -/
theorem onChangeStockBajoLimite_negative :
    onChangeStockBajoLimite "-5" = -5 ∧ ¬ (0 ≤ onChangeStockBajoLimite "-5") := by
  decide

/-! ## The product form: claims -/

/-- C24: the object sent by `handleProductoSubmit` has stock 0 when the stock
field is empty or not a number, price 0 when the price field is empty or not a
number, and `null` for an empty intake or expiry date; the code, the
description, the unit and every non-empty date are sent unchanged. -/
theorem handleProductoSubmit_coerces (productoForm : ProductoForm) :
    ((productoForm.stock_actual = Campo.texto "" ∨
        parseIntCampo productoForm.stock_actual = none) →
      (handleProductoSubmit productoForm).stock_actual = 0) ∧
    ((productoForm.precio_venta = Campo.texto "" ∨
        parseFloatCampo productoForm.precio_venta = none) →
      (handleProductoSubmit productoForm).precio_venta = 0) ∧
    (productoForm.fecha_ingreso = "" →
      (handleProductoSubmit productoForm).fecha_ingreso = none) ∧
    (productoForm.fecha_vencimiento = "" →
      (handleProductoSubmit productoForm).fecha_vencimiento = none) ∧
    (handleProductoSubmit productoForm).codigo = productoForm.codigo ∧
    (handleProductoSubmit productoForm).descripcion = productoForm.descripcion ∧
    (handleProductoSubmit productoForm).unidad_venta = productoForm.unidad_venta ∧
    (productoForm.fecha_ingreso ≠ "" →
      (handleProductoSubmit productoForm).fecha_ingreso = some productoForm.fecha_ingreso) ∧
    (productoForm.fecha_vencimiento ≠ "" →
      (handleProductoSubmit productoForm).fecha_vencimiento =
        some productoForm.fecha_vencimiento) := by
  refine ⟨?_, ?_, ?_, ?_, rfl, rfl, rfl, ?_, ?_⟩
  · intro h
    have hn : parseIntCampo productoForm.stock_actual = none := by
      rcases h with h | h
      · rw [h]; exact parseInt_empty
      · exact h
    simp only [handleProductoSubmit, hn, orDefault]
  · intro h
    have hn : parseFloatCampo productoForm.precio_venta = none := by
      rcases h with h | h
      · rw [h]; exact parseFloat_empty
      · exact h
    simp only [handleProductoSubmit, hn, orDefault]
  · intro h
    simp only [handleProductoSubmit, h, if_true]
  · intro h
    simp only [handleProductoSubmit, h, if_true]
  · intro h
    simp only [handleProductoSubmit, h, if_false]
  · intro h
    simp only [handleProductoSubmit, h, if_false]

/-- A form with an empty stock field, the text `abc` in the price field, no
intake date and an expiry date. -/
theorem handleProductoSubmit_coerces_witness :
    (handleProductoSubmit
      ⟨"A1", "Leche", "Unidades", Campo.texto "", Campo.texto "abc", "",
        "2025-03-01"⟩).stock_actual = 0 ∧
    (handleProductoSubmit
      ⟨"A1", "Leche", "Unidades", Campo.texto "", Campo.texto "abc", "",
        "2025-03-01"⟩).precio_venta = 0 ∧
    (handleProductoSubmit
      ⟨"A1", "Leche", "Unidades", Campo.texto "", Campo.texto "abc", "",
        "2025-03-01"⟩).fecha_ingreso = none ∧
    (handleProductoSubmit
      ⟨"A1", "Leche", "Unidades", Campo.texto "", Campo.texto "abc", "",
        "2025-03-01"⟩).fecha_vencimiento = some "2025-03-01" :=
  ⟨(handleProductoSubmit_coerces _).1 (Or.inl rfl),
    (handleProductoSubmit_coerces _).2.1
      (Or.inr (by
        have h : decimalParts (stripSign ("abc".data.dropWhile isWhiteSpace)) = none := by
          decide
        simp only [parseFloatCampo, parseFloat, h])),
    (handleProductoSubmit_coerces _).2.2.1 rfl,
    (handleProductoSubmit_coerces _).2.2.2.2.2.2.2.2 (by decide)⟩

/-- C25, as stated, fails: with the text `-3` in the stock field and `-5` in the
price field the object sent has stock -3 and price -5. -/
theorem handleProductoSubmit_negative :
    (handleProductoSubmit
      ⟨"A1", "Leche", "Unidades", Campo.texto "-3", Campo.texto "-5", "", ""⟩).stock_actual =
        -3 ∧
    (handleProductoSubmit
      ⟨"A1", "Leche", "Unidades", Campo.texto "-3", Campo.texto "-5", "", ""⟩).precio_venta =
        -5 := by
  refine ⟨by decide, ?_⟩
  have h : decimalParts (stripSign ("-5".data.dropWhile isWhiteSpace)) = some (5, 0, 0) := by
    decide
  have h2 : startsWithMinus "-5" = true := by decide
  simp only [handleProductoSubmit, parseFloatCampo, parseFloat, h, h2, orDefault]
  norm_num

/-! ## Lemmas on the decimal digits of a number -/

theorem digitChar_toNat {d : Nat} (h : d < 10) : (digitChar d).toNat = 48 + d := by
  interval_cases d <;> rfl

theorem digitOf_of_decimal {c : Char} (h : 48 ≤ c.toNat ∧ c.toNat ≤ 57) :
    digitOf c = some (c.toNat - 48) := by
  unfold digitOf
  rw [if_pos h]

theorem isWhiteSpace_of_decimal {c : Char} (h : 48 ≤ c.toNat ∧ c.toNat ≤ 57) :
    isWhiteSpace c = false := by
  unfold isWhiteSpace
  simp only [Bool.or_eq_false_iff, Bool.and_eq_false_iff, decide_eq_false_iff_not]
  omega

theorem ne_of_toNat_ne {c d : Char} (h : c.toNat ≠ d.toNat) : c ≠ d := by
  intro hcd
  exact h (by rw [hcd])

theorem stripSign_of_decimal {c : Char} (h : 48 ≤ c.toNat ∧ c.toNat ≤ 57) (resto : List Char) :
    stripSign (c :: resto) = c :: resto := by
  have h1 : c ≠ '-' := ne_of_toNat_ne (by
    have : ('-' : Char).toNat = 45 := rfl
    omega)
  have h2 : c ≠ '+' := ne_of_toNat_ne (by
    have : ('+' : Char).toNat = 43 := rfl
    omega)
  unfold stripSign
  split
  · rename_i heq; exact absurd (List.cons.inj heq).1 h1
  · rename_i heq; exact absurd (List.cons.inj heq).1 h2
  · rfl

theorem stripHex_of_decimal {s : List Char} (h : ∀ c ∈ s, 48 ≤ c.toNat ∧ c.toNat ≤ 57) :
    stripHex s = (10, s) := by
  unfold stripHex
  split
  · rename_i resto
    have := h 'x' (by simp)
    have hx : ('x' : Char).toNat = 120 := rfl
    omega
  · rename_i resto
    have := h 'X' (by simp)
    have hx : ('X' : Char).toNat = 88 := rfl
    omega
  · rfl

theorem leadingDigits_of_decimal {s : List Char}
    (h : ∀ c ∈ s, 48 ≤ c.toNat ∧ c.toNat ≤ 57) :
    leadingDigits 10 s = s.map (fun c => c.toNat - 48) := by
  induction s with
  | nil => rfl
  | cons c cs ih =>
    have hc := h c (List.mem_cons_self c cs)
    rw [leadingDigits, digitOf_of_decimal hc]
    simp only [List.map_cons]
    rw [if_pos (by omega), ih (fun d hd => h d (List.mem_cons_of_mem c hd))]

theorem natDigitsAux_append (fuel n : Nat) (acc : List Char) :
    natDigitsAux fuel n acc = natDigitsAux fuel n [] ++ acc := by
  induction fuel generalizing n acc with
  | zero => rfl
  | succ k ih =>
    unfold natDigitsAux
    split_ifs
    · rfl
    · rw [ih (n / 10) (digitChar (n % 10) :: acc), ih (n / 10) [digitChar (n % 10)]]
      simp

theorem natDigitsAux_decimal (fuel n : Nat) :
    ∀ c ∈ natDigitsAux fuel n [], 48 ≤ c.toNat ∧ c.toNat ≤ 57 := by
  induction fuel generalizing n with
  | zero => intro c hc; simp [natDigitsAux] at hc
  | succ k ih =>
    intro c hc
    unfold natDigitsAux at hc
    split_ifs at hc with hlt
    · rw [List.mem_singleton] at hc
      rw [hc, digitChar_toNat hlt]
      omega
    · rw [natDigitsAux_append, List.mem_append, List.mem_singleton] at hc
      rcases hc with hc | hc
      · exact ih (n / 10) c hc
      · rw [hc, digitChar_toNat (Nat.mod_lt n (by decide))]
        omega

theorem natDigitsAux_value (fuel n : Nat) (h : n < fuel) :
    digitsToNat 10 ((natDigitsAux fuel n []).map (fun c => c.toNat - 48)) = n := by
  induction fuel generalizing n with
  | zero => omega
  | succ k ih =>
    unfold natDigitsAux
    split_ifs with hlt
    · simp [digitsToNat, digitChar_toNat hlt]
    · rw [natDigitsAux_append]
      have hk : n / 10 < k := by omega
      have := ih (n / 10) hk
      unfold digitsToNat at this ⊢
      rw [List.map_append, List.foldl_append, this]
      simp [digitChar_toNat (Nat.mod_lt n (by decide : 0 < 10))]
      omega

theorem natDigits_ne_nil (n : Nat) : natDigits n ≠ [] := by
  unfold natDigits natDigitsAux
  split_ifs
  · simp
  · rw [natDigitsAux_append]
    simp

theorem natDigits_decimal (n : Nat) : ∀ c ∈ natDigits n, 48 ≤ c.toNat ∧ c.toNat ≤ 57 :=
  natDigitsAux_decimal _ _

theorem natDigits_value (n : Nat) :
    digitsToNat 10 ((natDigits n).map (fun c => c.toNat - 48)) = n :=
  natDigitsAux_value _ _ (Nat.lt_succ_self n)

/-- A text made of decimal digits is read by `parseInt` as the number it
writes. -/
theorem parseInt_of_decimal {s : List Char} (hne : s ≠ [])
    (h : ∀ c ∈ s, 48 ≤ c.toNat ∧ c.toNat ≤ 57) :
    parseInt ⟨s⟩ = some (digitsToNat 10 (s.map (fun c => c.toNat - 48)) : Int) := by
  obtain ⟨c, cs, rfl⟩ := List.exists_cons_of_ne_nil hne
  have hc := h c (List.mem_cons_self c cs)
  have hdrop : (c :: cs).dropWhile isWhiteSpace = c :: cs := by
    rw [List.dropWhile_cons, isWhiteSpace_of_decimal hc]
    rfl
  have hdig : parseIntDigits ⟨c :: cs⟩ = (10, (c :: cs).map (fun c => c.toNat - 48)) := by
    unfold parseIntDigits
    simp only [hdrop, stripSign_of_decimal hc, stripHex_of_decimal h,
      leadingDigits_of_decimal h]
  have hminus : startsWithMinus ⟨c :: cs⟩ = false := by
    unfold startsWithMinus
    simp only [hdrop, List.head?_cons]
    have h1 : c ≠ '-' := ne_of_toNat_ne (by
      have : ('-' : Char).toNat = 45 := rfl
      omega)
    simp [h1]
  unfold parseInt
  rw [hdig, hminus]
  simp

/-- The text printed for a non-negative integer below 10^21 is read back by
`parseInt` as that integer. -/
theorem parseInt_numberToString {n : Int} (h0 : 0 ≤ n) (h1 : n < 10 ^ 21) :
    parseInt (numberToString n) = some n := by
  have hlt : n.natAbs < 10 ^ 21 := by omega
  have hneg : ¬ n < 0 := by omega
  unfold numberToString
  rw [if_neg hneg, if_pos hlt, List.nil_append,
    parseInt_of_decimal (natDigits_ne_nil _) (natDigits_decimal _), natDigits_value]
  congr 1
  omega

/-- The text printed for a non-negative integer does not start with a minus
sign. -/
theorem startsWithMinus_numberToString {n : Int} (h0 : 0 ≤ n) :
    startsWithMinus (numberToString n) = false := by
  have hneg : ¬ n < 0 := by omega
  obtain ⟨c, cs, hcs⟩ := List.exists_cons_of_ne_nil (natDigits_ne_nil n.natAbs)
  have hc : 48 ≤ c.toNat ∧ c.toNat ≤ 57 :=
    natDigits_decimal n.natAbs c (by rw [hcs]; exact List.mem_cons_self c cs)
  have h1 : c ≠ '-' := ne_of_toNat_ne (by
    have : ('-' : Char).toNat = 45 := rfl
    omega)
  unfold startsWithMinus numberToString
  rw [if_neg hneg, hcs]
  split_ifs <;>
    simp [List.dropWhile_cons, isWhiteSpace_of_decimal hc, h1]

/-- Every number below 2^53 is below `overflowBound`. -/
theorem lt_overflowBound (n : Nat) (h : n < 2 ^ 53) : n < overflowBound := by
  have h1 : (2 : Nat) ^ 53 ≤ 2 ^ 970 :=
    pow_le_pow_right₀ (by decide : (1 : Nat) ≤ 2) (by decide : 53 ≤ 970)
  have h2 : 2 * (2 : Nat) ^ 970 ≤ 2 ^ 1024 := by
    rw [← pow_succ']
    exact pow_le_pow_right₀ (by decide : (1 : Nat) ≤ 2) (by decide : 970 + 1 ≤ 1024)
  unfold overflowBound
  generalize (2 : Nat) ^ 53 = c at h h1
  generalize (2 : Nat) ^ 970 = a at h1 h2 ⊢
  generalize (2 : Nat) ^ 1024 = b at h2 ⊢
  omega

/-- C25, amended: when neither numeric field carries a minus sign (a typed text
does not start with one; a number held by the field is not negative), the
price text is not the numeral `Infinity`, and the numbers read in the two
fields are below `overflowBound` (JavaScript reads them as finite numbers), the
object sent by `handleProductoSubmit` has a non-negative integer stock and a
non-negative price, both below `overflowBound`. -/
theorem handleProductoSubmit_nonneg (productoForm : ProductoForm)
    (hs : ∀ s, productoForm.stock_actual = Campo.texto s → startsWithMinus s = false)
    (hn : ∀ n, productoForm.stock_actual = Campo.numero n → 0 ≤ n)
    (hsr : ∀ n, parseIntCampo productoForm.stock_actual = some n →
      n < (overflowBound : Int))
    (hp : ∀ s, productoForm.precio_venta = Campo.texto s →
      startsWithMinus s = false ∧ readsInfinity s = false)
    (hx : ∀ x, productoForm.precio_venta = Campo.numero x → 0 ≤ x)
    (hpr : ∀ x, parseFloatCampo productoForm.precio_venta = some x →
      x < (overflowBound : Rat)) :
    (0 ≤ (handleProductoSubmit productoForm).stock_actual ∧
      (handleProductoSubmit productoForm).stock_actual < (overflowBound : Int)) ∧
    (0 ≤ (handleProductoSubmit productoForm).precio_venta ∧
      (handleProductoSubmit productoForm).precio_venta < (overflowBound : Rat)) := by
  have hb : 0 < overflowBound := lt_overflowBound 0 (by norm_num)
  refine ⟨⟨?_, ?_⟩, ⟨?_, ?_⟩⟩
  · apply orDefault_nonneg _ _ (le_refl _)
    intro n h
    cases hc : productoForm.stock_actual with
    | texto s =>
      rw [hc] at h
      exact parseInt_nonneg (hs s hc) h
    | numero m =>
      rw [hc] at h
      exact parseInt_nonneg (startsWithMinus_numberToString (hn m hc)) h
  · show orDefault (parseIntCampo productoForm.stock_actual) 0 < (overflowBound : Int)
    have h0 : (0 : Int) < (overflowBound : Int) := by exact_mod_cast hb
    cases hv : parseIntCampo productoForm.stock_actual with
    | none => exact h0
    | some n =>
      simp only [orDefault]
      split_ifs
      · exact h0
      · exact hsr n hv
  · apply orDefault_nonneg _ _ (le_refl _)
    intro x h
    cases hc : productoForm.precio_venta with
    | texto s =>
      rw [hc] at h
      exact parseFloat_nonneg (hp s hc).1 h
    | numero y =>
      rw [hc] at h
      cases Option.some.inj h
      exact hx _ hc
  · show orDefault (parseFloatCampo productoForm.precio_venta) 0 < (overflowBound : Rat)
    have h0 : (0 : Rat) < (overflowBound : Rat) := by exact_mod_cast hb
    cases hv : parseFloatCampo productoForm.precio_venta with
    | none => exact h0
    | some x =>
      simp only [orDefault]
      split_ifs
      · exact h0
      · exact hpr x hv

/-- A form with the text `3` in the stock field and `12.50` in the price
field. -/
theorem handleProductoSubmit_nonneg_witness :
    (0 ≤ (handleProductoSubmit
      ⟨"A1", "Leche", "Unidades", Campo.texto "3", Campo.texto "12.50", "", ""⟩).stock_actual ∧
    (handleProductoSubmit
      ⟨"A1", "Leche", "Unidades", Campo.texto "3", Campo.texto "12.50", "", ""⟩).stock_actual <
        (overflowBound : Int)) ∧
    (0 ≤ (handleProductoSubmit
      ⟨"A1", "Leche", "Unidades", Campo.texto "3", Campo.texto "12.50", "", ""⟩).precio_venta ∧
    (handleProductoSubmit
      ⟨"A1", "Leche", "Unidades", Campo.texto "3", Campo.texto "12.50", "", ""⟩).precio_venta <
        (overflowBound : Rat)) :=
  handleProductoSubmit_nonneg
    ⟨"A1", "Leche", "Unidades", Campo.texto "3", Campo.texto "12.50", "", ""⟩
    (fun s h => by cases h; decide) (fun n h => by cases h)
    (fun n h => by
      have h3 : parseIntCampo (Campo.texto "3") = some 3 := by decide
      have h4 : n = 3 := (Option.some.inj (h.symm.trans h3)).symm ▸ rfl
      rw [h4]
      exact_mod_cast lt_overflowBound 3 (by norm_num))
    (fun s h => by cases h; exact ⟨by decide, by decide⟩) (fun x h => by cases h)
    (fun x h => by
      have hd : decimalParts (stripSign ("12.50".data.dropWhile isWhiteSpace)) =
          some (1250, 2, 0) := by decide
      have hm : startsWithMinus "12.50" = false := by decide
      have h4 : parseFloatCampo (Campo.texto "12.50") = some x := h
      simp only [parseFloatCampo, parseFloat, hd, hm, Bool.false_eq_true, if_false,
        Option.some.injEq] at h4
      rw [← h4]
      have h5 : ((13 : Nat) : Rat) < (overflowBound : Rat) := by
        exact_mod_cast lt_overflowBound 13 (by norm_num)
      have h6 : (1250 : Rat) / 10 ^ 2 * 10 ^ (0 : Int) ≤ ((13 : Nat) : Rat) := by norm_num
      exact lt_of_le_of_lt (by exact_mod_cast h6) h5)

/-- C26: for a product with non-negative stock the classifier returns LowStock
only if `0 < stock < stock_bajo_limite`; a stock equal to the limit is not
LowStock, and with limit 0 no such product is LowStock. -/
theorem getRowColor_stock_bajo_only_if (parse : String → Option Int)
    (configuracion : Configuracion) (ahora : Int) (producto : Producto)
    (h0 : 0 ≤ producto.stock_actual) :
    (getRowColor parse configuracion ahora producto = "bg-yellow-100 border-yellow-300" →
      0 < producto.stock_actual ∧
        producto.stock_actual < configuracion.stock_bajo_limite) ∧
    (producto.stock_actual = configuracion.stock_bajo_limite →
      getRowColor parse configuracion ahora producto ≠ "bg-yellow-100 border-yellow-300") ∧
    (configuracion.stock_bajo_limite = 0 →
      getRowColor parse configuracion ahora producto ≠ "bg-yellow-100 border-yellow-300") := by
  have key : getRowColor parse configuracion ahora producto =
      "bg-yellow-100 border-yellow-300" →
      0 < producto.stock_actual ∧
        producto.stock_actual < configuracion.stock_bajo_limite := by
    unfold getRowColor
    split_ifs with a b c d
    · intro h; exact absurd h (by decide)
    · intro _; exact ⟨by omega, b⟩
    · intro h; exact absurd h (by decide)
    · intro h; exact absurd h (by decide)
    · intro h; exact absurd h (by decide)
  refine ⟨key, ?_, ?_⟩
  · intro heq h
    have := key h
    omega
  · intro heq h
    have := key h
    omega

/-- A product with stock 10 under the limit 10, seen on 2025-01-31. -/
theorem getRowColor_stock_bajo_only_if_witness :
    getRowColor isoParse ⟨10, 2⟩ 1738281600000
      ⟨"2", "B1", "Arroz", "Cajas", 10, 3, none, none⟩ ≠ "bg-yellow-100 border-yellow-300" :=
  (getRowColor_stock_bajo_only_if isoParse ⟨10, 2⟩ 1738281600000
    ⟨"2", "B1", "Arroz", "Cajas", 10, 3, none, none⟩ (by decide)).2.1 rfl

/-- C30, as stated, fails: a stored product with stock 10^21 comes back from
the edit form with stock 1, because the form holds the number, `parseInt`
prints it as `1e+21` and reads the digit before the `e`. -/
theorem editarItem_roundtrip_large_stock :
    numberToString (10 ^ 21) = "1e+21" ∧
    (handleProductoSubmit
      (editarItem ⟨"1", "A1", "Leche", "Unidades", 10 ^ 21, 5, none, none⟩)).stock_actual =
        1 := by
  decide

/-- C30, amended: for a stored product with a unit of sale, a non-negative
integer stock below 10^21 and dates that are null or non-empty, the object
built by `handleProductoSubmit` from the form filled by `editarItem` has the
code, description, unit, stock, price, intake date and expiry date of the
product. -/
theorem editarItem_roundtrip (producto : Producto)
    (hu : producto.unidad_venta ≠ "")
    (h0 : 0 ≤ producto.stock_actual) (h1 : producto.stock_actual < 10 ^ 21)
    (hi : producto.fecha_ingreso ≠ some "") (hv : producto.fecha_vencimiento ≠ some "") :
    (handleProductoSubmit (editarItem producto)).codigo = producto.codigo ∧
    (handleProductoSubmit (editarItem producto)).descripcion = producto.descripcion ∧
    (handleProductoSubmit (editarItem producto)).unidad_venta = producto.unidad_venta ∧
    (handleProductoSubmit (editarItem producto)).stock_actual = producto.stock_actual ∧
    (handleProductoSubmit (editarItem producto)).precio_venta = producto.precio_venta ∧
    (handleProductoSubmit (editarItem producto)).fecha_ingreso = producto.fecha_ingreso ∧
    (handleProductoSubmit (editarItem producto)).fecha_vencimiento =
      producto.fecha_vencimiento := by
  have hstr : ∀ s : String, strOr (some s) "" = s := by
    intro s
    unfold strOr
    simp only []
    split_ifs with h
    · exact h.symm
    · rfl
  have hor : ∀ {α : Type} [Zero α] [DecidableEq α] (x : α), orDefault (some x) 0 = x := by
    intro α _ _ x
    unfold orDefault
    simp only []
    split_ifs with h
    · exact h.symm
    · rfl
  have hdate : ∀ f : Option String, f ≠ some "" →
      (if strOr f "" = "" then none else some (strOr f "")) = f := by
    intro f hf
    cases f with
    | none => simp [strOr]
    | some s =>
      have hs : s ≠ "" := fun h => hf (by rw [h])
      simp [strOr, hs]
  refine ⟨hstr _, hstr _, ?_, ?_, ?_, hdate _ hi, hdate _ hv⟩
  · simp only [handleProductoSubmit, editarItem, strOr, if_neg hu]
  · simp only [handleProductoSubmit, editarItem, parseIntCampo, hor,
      parseInt_numberToString h0 h1]
  · simp only [handleProductoSubmit, editarItem, parseFloatCampo, hor]

/-- A stored product with stock 0, price 12.5, no intake date and an expiry
date. -/
theorem editarItem_roundtrip_witness :
    (handleProductoSubmit
      (editarItem ⟨"1", "A1", "Leche", "Cajas", 0, 25 / 2, none,
        some "2025-03-01"⟩)).stock_actual = 0 ∧
    (handleProductoSubmit
      (editarItem ⟨"1", "A1", "Leche", "Cajas", 0, 25 / 2, none,
        some "2025-03-01"⟩)).precio_venta = 25 / 2 ∧
    (handleProductoSubmit
      (editarItem ⟨"1", "A1", "Leche", "Cajas", 0, 25 / 2, none,
        some "2025-03-01"⟩)).fecha_ingreso = none ∧
    (handleProductoSubmit
      (editarItem ⟨"1", "A1", "Leche", "Cajas", 0, 25 / 2, none,
        some "2025-03-01"⟩)).fecha_vencimiento = some "2025-03-01" :=
  ⟨(editarItem_roundtrip ⟨"1", "A1", "Leche", "Cajas", 0, 25 / 2, none, some "2025-03-01"⟩
      (by decide) (by decide) (by decide) (by decide) (by decide)).2.2.2.1,
    (editarItem_roundtrip ⟨"1", "A1", "Leche", "Cajas", 0, 25 / 2, none, some "2025-03-01"⟩
      (by decide) (by decide) (by decide) (by decide) (by decide)).2.2.2.2.1,
    (editarItem_roundtrip ⟨"1", "A1", "Leche", "Cajas", 0, 25 / 2, none, some "2025-03-01"⟩
      (by decide) (by decide) (by decide) (by decide) (by decide)).2.2.2.2.2.1,
    (editarItem_roundtrip ⟨"1", "A1", "Leche", "Cajas", 0, 25 / 2, none, some "2025-03-01"⟩
      (by decide) (by decide) (by decide) (by decide) (by decide)).2.2.2.2.2.2⟩

/-! ## Lemmas on the limit date as a function of the clock and the horizon -/

/-- The classifier returns ExpiringSoon exactly when the stock passes both
tests and the expiry text is a date on or before the limit date. -/
theorem getRowColor_eq_orange_iff (parse : String → Option Int)
    (configuracion : Configuracion) (ahora : Int) (producto : Producto) :
    getRowColor parse configuracion ahora producto = "bg-orange-100 border-orange-300" ↔
      producto.stock_actual ≠ 0 ∧
      ¬ producto.stock_actual < configuracion.stock_bajo_limite ∧
      ∃ texto e l, producto.fecha_vencimiento = some texto ∧ texto ≠ "" ∧
        parse texto = some e ∧ fechaLimite configuracion ahora = some l ∧ e ≤ l := by
  constructor
  · intro h
    unfold getRowColor at h
    split_ifs at h with a b c d
    · exact absurd h (by decide)
    · exact absurd h (by decide)
    · refine ⟨a, b, ?_⟩
      cases hf : producto.fecha_vencimiento with
      | none => rw [hf] at c; simp [truthy] at c
      | some texto =>
        rw [hf] at c d
        have hne : texto ≠ "" := by simpa [truthy] using c
        have d : dateLe (parse texto) (fechaLimite configuracion ahora) = true := d
        cases hp : parse texto with
        | none => rw [hp] at d; simp [dateLe] at d
        | some e =>
          cases hl : fechaLimite configuracion ahora with
          | none => rw [hp, hl] at d; simp [dateLe] at d
          | some l =>
            rw [hp, hl] at d
            exact ⟨texto, e, l, rfl, hne, hp, by first | exact hl | rfl,
              by simpa [dateLe] using d⟩
    · exact absurd h (by decide)
    · exact absurd h (by decide)
  · rintro ⟨a, b, texto, e, l, hf, hne, hp, hl, hle⟩
    rw [getRowColor_expiry parse configuracion ahora producto texto a b hf hne, hp, hl]
    simp [dateLe, hle]

/-- The day number `MakeDay` gives depends on the year and the month through
the month count `12 * year + month` only. -/
theorem MakeDay_month_count (year month date : Int) :
    MakeDay year month date = MakeDay 0 (12 * year + month) date := by
  have e1 : (12 * year + month) / 12 = year + month / 12 := by omega
  have e2 : (12 * year + month) % 12 = month % 12 := by omega
  rw [MakeDay_eq, MakeDay_eq, e1, e2, zero_add]

theorem MakeDay_mono_of_le (year date : Int) {m1 m2 : Int} (h : m1 ≤ m2) :
    MakeDay year m1 date ≤ MakeDay year m2 date := by
  have := MakeDay_mono_month year m1 date (m2 - m1).toNat
  rw [Int.toNat_of_nonneg (by omega)] at this
  have e : m1 + (m2 - m1) = m2 := by ring
  rw [e] at this
  exact this

/-- The limit date does not decrease when the horizon grows. -/
theorem setMonth_mono_month {t m1 m2 l1 l2 : Int} (h : m1 ≤ m2)
    (h1 : setMonth t m1 = some l1) (h2 : setMonth t m2 = some l2) : l1 ≤ l2 := by
  rw [setMonth_eq_some h1, setMonth_eq_some h2]
  have := MakeDay_mono_of_le (YearFromTime t) (DateFromTime t) h
  unfold MakeDate msPerDay
  omega

/-- The month count of a time value. -/
theorem Day_eq_MakeDay_month_count (t : Int) :
    Day t = MakeDay 0 (12 * YearFromTime t + MonthFromTime t) (DateFromTime t) := by
  rw [← MakeDay_month_count, MakeDay_fields]

/-- A time value lies before the first day of the month after its own. -/
theorem Day_lt_next_month (t : Int) :
    Day t < MakeDay 0 (12 * YearFromTime t + MonthFromTime t + 1) 1 := by
  have hm := MonthFromTime_bounds t
  have hd := DateFromTime_bounds t
  have hs := MakeDay_succ_month 0 (12 * YearFromTime t + MonthFromTime t)
  have e1 : (12 * YearFromTime t + MonthFromTime t) / 12 = YearFromTime t := by omega
  have e2 : (12 * YearFromTime t + MonthFromTime t) % 12 = MonthFromTime t := by omega
  rw [e1, e2, zero_add] at hs
  have hday := Day_eq_MakeDay_month_count t
  have hdate := MakeDay_date 0 (12 * YearFromTime t + MonthFromTime t) (DateFromTime t)
  unfold InLeapYear at hd
  omega

/-- The month count does not decrease with time. -/
theorem month_count_mono {t1 t2 : Int} (h : t1 ≤ t2) :
    12 * YearFromTime t1 + MonthFromTime t1 ≤ 12 * YearFromTime t2 + MonthFromTime t2 := by
  by_contra hlt
  have hK : 12 * YearFromTime t2 + MonthFromTime t2 + 1 ≤
      12 * YearFromTime t1 + MonthFromTime t1 := by omega
  have h1 := Day_lt_next_month t2
  have h2 := MakeDay_mono_of_le 0 1 hK
  have h3 := Day_eq_MakeDay_month_count t1
  have h4 := MakeDay_date 0 (12 * YearFromTime t1 + MonthFromTime t1) (DateFromTime t1)
  have h5 := (DateFromTime_bounds t1).1
  have h6 := Day_mono h
  omega

/-- The limit date does not decrease with the clock when the day of the month
of the earlier date exists in its target month. -/
theorem setMonth_mono_clock {t1 t2 n l1 l2 : Int} (h : t1 ≤ t2)
    (hday : DateFromTime t1 ≤
      daysInMonth ((MonthFromTime t1 + n) % 12)
        (leapOfYear (YearFromTime t1 + (MonthFromTime t1 + n) / 12)))
    (h1 : setMonth t1 (MonthFromTime t1 + n) = some l1)
    (h2 : setMonth t2 (MonthFromTime t2 + n) = some l2) : l1 ≤ l2 := by
  rw [setMonth_eq_some h1, setMonth_eq_some h2]
  have hK := month_count_mono h
  have a1 := MakeDay_month_count (YearFromTime t1) (MonthFromTime t1 + n) (DateFromTime t1)
  have a2 := MakeDay_month_count (YearFromTime t2) (MonthFromTime t2 + n) (DateFromTime t2)
  have b1 := MakeDay_date 0 (12 * YearFromTime t1 + (MonthFromTime t1 + n)) (DateFromTime t1)
  have b2 := MakeDay_date 0 (12 * YearFromTime t2 + (MonthFromTime t2 + n)) (DateFromTime t2)
  have c1 := TimeWithinDay_bounds t1
  have c2 := TimeWithinDay_bounds t2
  have d2 := (DateFromTime_bounds t2).1
  rcases eq_or_lt_of_le hK with heq | hlt
  · have e1 := Day_eq_MakeDay_month_count t1
    have e2 := Day_eq_MakeDay_month_count t2
    have f1 := MakeDay_date 0 (12 * YearFromTime t1 + MonthFromTime t1) (DateFromTime t1)
    have f2 := MakeDay_date 0 (12 * YearFromTime t2 + MonthFromTime t2) (DateFromTime t2)
    have g1 := MakeDate_Day t1
    have g2 := MakeDate_Day t2
    have i : 12 * YearFromTime t1 + (MonthFromTime t1 + n) =
        12 * YearFromTime t2 + (MonthFromTime t2 + n) := by omega
    rw [heq] at e1 f1
    rw [i] at a1 b1
    unfold MakeDate msPerDay at *
    omega
  · have hs := MakeDay_succ_month 0 (12 * YearFromTime t1 + (MonthFromTime t1 + n))
    have e1 : (12 * YearFromTime t1 + (MonthFromTime t1 + n)) / 12 =
        YearFromTime t1 + (MonthFromTime t1 + n) / 12 := by omega
    have e2 : (12 * YearFromTime t1 + (MonthFromTime t1 + n)) % 12 =
        (MonthFromTime t1 + n) % 12 := by omega
    rw [e1, e2, zero_add] at hs
    have hmono := MakeDay_mono_of_le 0 1
      (show 12 * YearFromTime t1 + (MonthFromTime t1 + n) + 1 ≤
        12 * YearFromTime t2 + (MonthFromTime t2 + n) by omega)
    unfold MakeDate msPerDay at *
    omega

/-! ## The classifier over time and over horizons: claims -/

/-- C27, as stated, fails: with a horizon of one month a product with stock 20
that expires on 2025-03-02 is ExpiringSoon on 2025-01-31 (the limit date is
2025-03-03) and Normal on the next day, 2025-02-01 (the limit date is
2025-03-01). -/
theorem getRowColor_not_persistent :
    (1738281600000 : Int) ≤ 1738368000000 ∧
    fechaLimite ⟨10, 1⟩ 1738281600000 = some 1740960000000 ∧
    fechaLimite ⟨10, 1⟩ 1738368000000 = some 1740787200000 ∧
    getRowColor isoParse ⟨10, 1⟩ 1738281600000
      ⟨"3", "C1", "Yogur", "Unidades", 20, 2, none, some "2025-03-02"⟩ =
        "bg-orange-100 border-orange-300" ∧
    getRowColor isoParse ⟨10, 1⟩ 1738368000000
      ⟨"3", "C1", "Yogur", "Unidades", 20, 2, none, some "2025-03-02"⟩ =
        "bg-white border-gray-200" := by
  decide

/-- C27, amended: with product and configuration fixed, an ExpiringSoon result
at `hoy1` persists at every later date `hoy2` whose limit date is a
representable date, provided the day of the month of `hoy1` exists in the month
its limit date is aimed at (so that the limit date of `hoy1` does not carry
over into the following month). -/
theorem getRowColor_persistent (parse : String → Option Int) (configuracion : Configuracion)
    (hoy1 hoy2 l2 : Int) (producto : Producto) (h : hoy1 ≤ hoy2)
    (hday : getDate hoy1 ≤
      daysInMonth ((getMonth hoy1 + configuracion.vencimiento_alerta_meses) % 12)
        (leapOfYear (getFullYear hoy1 +
          (getMonth hoy1 + configuracion.vencimiento_alerta_meses) / 12)))
    (hl2 : fechaLimite configuracion hoy2 = some l2)
    (hsoon : getRowColor parse configuracion hoy1 producto =
      "bg-orange-100 border-orange-300") :
    getRowColor parse configuracion hoy2 producto = "bg-orange-100 border-orange-300" := by
  rw [getRowColor_eq_orange_iff] at hsoon ⊢
  obtain ⟨a, b, texto, e, l1, hf, hne, hp, hl1, hle⟩ := hsoon
  have := setMonth_mono_clock h hday hl1 hl2
  exact ⟨a, b, texto, e, l2, hf, hne, hp, hl2, by omega⟩

/-- A product that expires on 2025-03-01, seen on 2025-01-15 and on 2025-01-31
with a horizon of two months. -/
theorem getRowColor_persistent_witness :
    getRowColor isoParse ⟨10, 2⟩ 1738281600000
      ⟨"3", "C1", "Yogur", "Unidades", 20, 2, none, some "2025-03-01"⟩ =
        "bg-orange-100 border-orange-300" :=
  getRowColor_persistent isoParse ⟨10, 2⟩ 1736899200000 1738281600000 1743379200000
    ⟨"3", "C1", "Yogur", "Unidades", 20, 2, none, some "2025-03-01"⟩ (by decide) (by decide)
    (by decide) (by decide)

/-- C28, as stated, fails: on 2025-01-31 a product with stock 20 that expires
on 2025-02-15 is ExpiringSoon with a horizon of 2 months and Normal with a
horizon of 4000000 months, for which the limit date is not a representable
date. -/
theorem getRowColor_horizon_invalid_limit :
    fechaLimite ⟨10, 4000000⟩ 1738281600000 = none ∧
    getRowColor isoParse ⟨10, 2⟩ 1738281600000
      ⟨"3", "C1", "Yogur", "Unidades", 20, 2, none, some "2025-02-15"⟩ =
        "bg-orange-100 border-orange-300" ∧
    getRowColor isoParse ⟨10, 4000000⟩ 1738281600000
      ⟨"3", "C1", "Yogur", "Unidades", 20, 2, none, some "2025-02-15"⟩ =
        "bg-white border-gray-200" := by
  decide

/-- C28, amended: with product, low-stock limit and current date fixed, an
ExpiringSoon result with horizon `h1` persists with every horizon `h2 ≥ h1`
whose limit date is a representable date; and the Depleted and LowStock results
are the same for all horizons. -/
theorem getRowColor_horizon_mono (parse : String → Option Int) (limite h1 h2 : Int)
    (ahora l2 : Int) (producto : Producto) (h : h1 ≤ h2)
    (hl2 : fechaLimite ⟨limite, h2⟩ ahora = some l2) :
    (getRowColor parse ⟨limite, h1⟩ ahora producto = "bg-orange-100 border-orange-300" →
      getRowColor parse ⟨limite, h2⟩ ahora producto = "bg-orange-100 border-orange-300") ∧
    (getRowColor parse ⟨limite, h1⟩ ahora producto = "bg-red-100 border-red-300" ↔
      getRowColor parse ⟨limite, h2⟩ ahora producto = "bg-red-100 border-red-300") ∧
    (getRowColor parse ⟨limite, h1⟩ ahora producto = "bg-yellow-100 border-yellow-300" ↔
      getRowColor parse ⟨limite, h2⟩ ahora producto = "bg-yellow-100 border-yellow-300") := by
  refine ⟨?_, ?_, ?_⟩
  · intro hsoon
    rw [getRowColor_eq_orange_iff] at hsoon ⊢
    obtain ⟨a, b, texto, e, l1, hf, hne, hp, hl1, hle⟩ := hsoon
    have := @setMonth_mono_month ahora (getMonth ahora + h1) (getMonth ahora + h2) l1 l2
      (by omega) hl1 hl2
    exact ⟨a, b, texto, e, l2, hf, hne, hp, hl2, by omega⟩
  · unfold getRowColor
    split_ifs <;> decide
  · unfold getRowColor
    split_ifs <;> decide

/-- A product that expires on 2025-02-15, seen on 2025-01-31 with horizons of 1
and 2 months. -/
theorem getRowColor_horizon_mono_witness :
    getRowColor isoParse ⟨10, 2⟩ 1738281600000
      ⟨"3", "C1", "Yogur", "Unidades", 20, 2, none, some "2025-02-15"⟩ =
        "bg-orange-100 border-orange-300" :=
  (getRowColor_horizon_mono isoParse 10 1 2 1738281600000 1743379200000
    ⟨"3", "C1", "Yogur", "Unidades", 20, 2, none, some "2025-02-15"⟩ (by decide)
    (by decide)).1 (by decide)

/-! ## Narrowing the search: claims -/

theorem filter_sublist_of_imp {α : Type} (p q : α → Bool) (h : ∀ a, p a = true → q a = true)
    (l : List α) : List.Sublist (l.filter p) (l.filter q) := by
  induction l with
  | nil => exact List.Sublist.slnil
  | cons a as ih =>
    rw [List.filter_cons, List.filter_cons]
    by_cases hp : p a = true
    · rw [if_pos hp, if_pos (h a hp)]
      exact List.Sublist.cons₂ a ih
    · rw [if_neg hp]
      split
      · exact List.Sublist.cons a ih
      · exact ih

theorem includes_narrow {texto q1 q2 : String} (hsub : q1.data <:+: q2.data)
    (h : includes texto q2 = true) : includes texto q1 = true := by
  rw [includes_iff] at h ⊢
  exact hsub.trans h

/-- C29, as stated, fails: lower-casing does not keep the substring relation.
The search text `Σ` is a substring of `ΑΣ`; a product with code `ΑΣ` is kept
for `ΑΣ` (both lower-case to `ας`, with a final sigma) and dropped for `Σ`
(which lower-cases to `σ`). -/
theorem productosFiltrados_not_narrowing :
    ("Σ" : String).data <:+: ("ΑΣ" : String).data ∧
    greekLower "Σ" = "σ" ∧ greekLower "ΑΣ" = "ας" ∧
    productosFiltrados greekLower
      [⟨"1", "ΑΣ", "Leche", "Unidades", 20, 5, none, none⟩] "ΑΣ" =
      [⟨"1", "ΑΣ", "Leche", "Unidades", 20, 5, none, none⟩] ∧
    productosFiltrados greekLower
      [⟨"1", "ΑΣ", "Leche", "Unidades", 20, 5, none, none⟩] "Σ" = [] ∧
    ¬ List.Sublist
      (productosFiltrados greekLower
        [⟨"1", "ΑΣ", "Leche", "Unidades", 20, 5, none, none⟩] "ΑΣ")
      (productosFiltrados greekLower
        [⟨"1", "ΑΣ", "Leche", "Unidades", 20, 5, none, none⟩] "Σ") := by
  decide

/-- C29, amended: when the lower-cased `q1` is a substring of the lower-cased
`q2`, the products kept for `q2` are a subsequence of the products kept for
`q1`, and so for the contacts; and filtering a filtered list again with the
same search text returns it unchanged. -/
theorem filtrados_narrow (toLowerCase : String → String) (q1 q2 : String)
    (hsub : (toLowerCase q1).data <:+: (toLowerCase q2).data)
    (productos : List Producto) (contactos : List Contacto) :
    List.Sublist (productosFiltrados toLowerCase productos q2)
      (productosFiltrados toLowerCase productos q1) ∧
    List.Sublist (contactosFiltrados toLowerCase contactos q2)
      (contactosFiltrados toLowerCase contactos q1) ∧
    productosFiltrados toLowerCase (productosFiltrados toLowerCase productos q1) q1 =
      productosFiltrados toLowerCase productos q1 ∧
    contactosFiltrados toLowerCase (contactosFiltrados toLowerCase contactos q1) q1 =
      contactosFiltrados toLowerCase contactos q1 := by
  refine ⟨?_, ?_, ?_, ?_⟩
  · unfold productosFiltrados
    apply filter_sublist_of_imp
    intro p hp
    rw [Bool.or_eq_true] at hp ⊢
    rcases hp with hp | hp
    · exact Or.inl (includes_narrow hsub hp)
    · exact Or.inr (includes_narrow hsub hp)
  · unfold contactosFiltrados
    apply filter_sublist_of_imp
    intro c hc
    rw [Bool.or_eq_true] at hc ⊢
    rcases hc with hc | hc
    · exact Or.inl (includes_narrow hsub hc)
    · right
      cases hcorreo : c.correo with
      | none => rw [hcorreo] at hc; simp at hc
      | some correo =>
        rw [hcorreo] at hc
        simp only [Bool.and_eq_true] at hc ⊢
        exact ⟨hc.1, includes_narrow hsub hc.2⟩
  · unfold productosFiltrados
    rw [List.filter_filter]
    congr 1
    funext p
    exact Bool.and_self _
  · unfold contactosFiltrados
    rw [List.filter_filter]
    congr 1
    funext c
    exact Bool.and_self _

/-- The search texts `a` and `A1` on a catalog of two products. -/
theorem filtrados_narrow_witness :
    List.Sublist
      (productosFiltrados asciiLower
        [⟨"1", "A1", "Leche", "Unidades", 0, 5, none, none⟩,
          ⟨"2", "B1", "Arroz", "Cajas", 5, 3, none, none⟩] "A1")
      (productosFiltrados asciiLower
        [⟨"1", "A1", "Leche", "Unidades", 0, 5, none, none⟩,
          ⟨"2", "B1", "Arroz", "Cajas", 5, 3, none, none⟩] "a") :=
  (filtrados_narrow asciiLower "a" "A1" (by decide)
    [⟨"1", "A1", "Leche", "Unidades", 0, 5, none, none⟩,
      ⟨"2", "B1", "Arroz", "Cajas", 5, 3, none, none⟩] []).1

end Inventario
